import Mathlib

/-!
# xeno-frontend: a verification development

A shallow embedding of the client logic of the dashboard application
(`src/App.js`, `src/Dashboard.js`, `src/Signup.js`, `src/TenantForm.js`).

* JavaScript `Date` objects are their time value: milliseconds since the epoch,
  an `Int`, or `none` for an invalid date (`NaN`).  The calendar functions are
  the abstract operations of ECMA-262 (`Day`, `DayFromYear`, `YearFromTime`,
  `MonthFromTime`, `DateFromTime`, `MakeDay`, `MakeDate`, `TimeClip`,
  `LocalTime`, `UTC`).
* The host time zone is a parameter (`TimeZone`), since `getDate`, `setDate`
  and `getDay` work in local time while `toISOString` and the parsing of
  date-only strings work in UTC.
* A finite number is the rational it denotes; the rounding of the host's
  floating-point arithmetic and its `Math.sin` and `Math.cos` are parameters
  (`MathHost`).
* Values decoded from JSON and held in state are `JsVal`; the conversions of
  the language that are not spelled out are parameters (`Builtins`).
* React state is a record; an effect or an event handler is the list of the
  actions it performs, given the outcomes of the network calls it awaits, and
  the final state is the state after these actions.

The definitions come first, then the lemmas and the theorems on the claims of
the specification.
-/

namespace Xeno

/-! ## Time values and the proleptic Gregorian calendar (ECMA-262, 21.4.1) -/

/-- Milliseconds in a day. -/
def msPerDay : Int := 86400000

/-- The day number of a time value. -/
def Day (t : Int) : Int := t / msPerDay

/-- The milliseconds elapsed within the day of a time value. -/
def TimeWithinDay (t : Int) : Int := t % msPerDay

/-- The number of days of year `y`. -/
def DaysInYear (y : Int) : Int :=
  if y % 4 ≠ 0 then 365
  else if y % 100 ≠ 0 then 366
  else if y % 400 ≠ 0 then 365
  else 366

/-- The day number of the first day of year `y`. -/
def DayFromYear (y : Int) : Int :=
  365 * (y - 1970) + (y - 1969) / 4 - (y - 1901) / 100 + (y - 1601) / 400

/-- The year containing day number `d`: the largest `y` with
`DayFromYear y ≤ d` (see `DayFromYear_YearFromDay_le` and
`lt_DayFromYear_YearFromDay_succ`).  Computed from the position of the day in
its 400-year cycle, counted from 1 January 2000 (day 10957). -/
def YearFromDay (d : Int) : Int :=
  let y1 := 2000 + 400 * ((d - 10957) / 146097) + ((d - 10957) % 146097) / 366
  if DayFromYear (y1 + 1) ≤ d then y1 + 1 else y1

/-- One for a leap year, zero otherwise. -/
def InLeapYear (y : Int) : Int := if DaysInYear y = 366 then 1 else 0

/-- The number of days of the year that precede month `m` (0 = January). -/
def daysBeforeMonth (m : Int) (leap : Int) : Int :=
  if m ≤ 0 then 0
  else if m = 1 then 31
  else if m = 2 then 59 + leap
  else if m = 3 then 90 + leap
  else if m = 4 then 120 + leap
  else if m = 5 then 151 + leap
  else if m = 6 then 181 + leap
  else if m = 7 then 212 + leap
  else if m = 8 then 243 + leap
  else if m = 9 then 273 + leap
  else if m = 10 then 304 + leap
  else if m = 11 then 334 + leap
  else 365 + leap

/-- The month (0 = January .. 11 = December) of the day `dwy` of a year. -/
def monthOfDayWithinYear (dwy : Int) (leap : Int) : Int :=
  if dwy < 31 then 0
  else if dwy < 59 + leap then 1
  else if dwy < 90 + leap then 2
  else if dwy < 120 + leap then 3
  else if dwy < 151 + leap then 4
  else if dwy < 181 + leap then 5
  else if dwy < 212 + leap then 6
  else if dwy < 243 + leap then 7
  else if dwy < 273 + leap then 8
  else if dwy < 304 + leap then 9
  else if dwy < 334 + leap then 10
  else 11

def YearFromTime (t : Int) : Int := YearFromDay (Day t)

def DayWithinYear (t : Int) : Int := Day t - DayFromYear (YearFromTime t)

def MonthFromTime (t : Int) : Int :=
  monthOfDayWithinYear (DayWithinYear t) (InLeapYear (YearFromTime t))

/-- The day of the month, 1 .. 31. -/
def DateFromTime (t : Int) : Int :=
  DayWithinYear t - daysBeforeMonth (MonthFromTime t) (InLeapYear (YearFromTime t)) + 1

/-- The day of the week, 0 = Sunday .. 6 = Saturday. -/
def WeekDay (t : Int) : Int := (Day t + 4) % 7

/-- The day number of day `date` of month `month` of `year`; months and dates
outside their range carry over. -/
def MakeDay (year month date : Int) : Int :=
  let ym := year + month / 12
  let mn := month % 12
  DayFromYear ym + daysBeforeMonth mn (InLeapYear ym) + date - 1

def MakeDate (day time : Int) : Int := day * msPerDay + time

/-- Time values beyond 100,000,000 days from the epoch are not dates. -/
def TimeClip (t : Int) : Option Int :=
  if t < -8640000000000000 ∨ 8640000000000000 < t then none else some t

/-- The number of days of month `m` (1 = January) of year `y`. -/
def DaysInMonth (y m : Int) : Int :=
  daysBeforeMonth m (InLeapYear y) - daysBeforeMonth (m - 1) (InLeapYear y)

/-! ## The host time zone -/

/-- The time zone of the host.  `LocalTZA t true` is the offset of local time
from UTC, in milliseconds, at the UTC time value `t`; `LocalTZA t false` is the
offset to be used for the local time value `t`.  `forward` says that the local
clock runs forward: one calendar day later in local time is a later instant. -/
structure TimeZone where
  LocalTZA : Int → Bool → Int
  forward : ∀ t : Int,
    t < (t + LocalTZA t true + msPerDay) - LocalTZA (t + LocalTZA t true + msPerDay) false

def LocalTime (tz : TimeZone) (t : Int) : Int := t + tz.LocalTZA t true

def UTC (tz : TimeZone) (t : Int) : Int := t - tz.LocalTZA t false

/-- A host whose offset from UTC never changes. -/
def fixedZone (offset : Int) : TimeZone where
  LocalTZA := fun _ _ => offset
  forward := by intro t; simp only [msPerDay]; omega

/-- A host whose offset changes once, from `before` to `after`, at the UTC
instant `instant` (the start or the end of daylight saving time).  A local
time that the change skips or repeats takes the offset `before`. -/
def changingZone (before after instant : Int)
    (h : before - msPerDay < after ∧ after < before + msPerDay) : TimeZone where
  LocalTZA := fun t isUTC =>
    if isUTC then (if t < instant then before else after)
    else (if t < instant + (if before ≤ after then after else before) then before else after)
  forward := by
    intro t
    simp only [msPerDay] at *
    split_ifs <;> omega

/-! ## `Date` methods used by the dashboard -/

/-- Method `Date.prototype.getDate`: the day of the month in local time. -/
def getDate (tz : TimeZone) (t : Int) : Int := DateFromTime (LocalTime tz t)

/-- Method `Date.prototype.getDay`: the day of the week in local time. -/
def getDay (tz : TimeZone) (t : Int) : Int := WeekDay (LocalTime tz t)

/-- Method `Date.prototype.setDate`: the new time value of the date. -/
def setDate (tz : TimeZone) (t : Int) (dt : Int) : Option Int :=
  let lt := LocalTime tz t
  let newDate := MakeDate (MakeDay (YearFromTime lt) (MonthFromTime lt) dt) (TimeWithinDay lt)
  TimeClip (UTC tz newDate)

/-! ## Strings

JavaScript strings are sequences of UTF-16 code units; `length` and
`charCodeAt` count code units. -/

/-- The UTF-16 code units of a character. -/
def utf16Char (c : Char) : List Nat :=
  if c.toNat < 65536 then [c.toNat]
  else [55296 + (c.toNat - 65536) / 1024, 56320 + (c.toNat - 65536) % 1024]

/-- The UTF-16 code units of a string. -/
def utf16 (s : String) : List Nat := s.data.flatMap utf16Char

/-- Property `String.prototype.length`. -/
def jsLength (s : String) : Nat := (utf16 s).length

/-- Method `String.prototype.charCodeAt`; `none` is `NaN`. -/
def charCodeAt (s : String) (i : Nat) : Option Nat := (utf16 s)[i]?

/-- The decimal digit character of `n % 10`. -/
def digitChar (n : Nat) : Char := Char.ofNat (48 + n % 10)

/-- The value of a decimal digit character. -/
def digitVal (c : Char) : Option Nat :=
  if 48 ≤ c.toNat ∧ c.toNat ≤ 57 then some (c.toNat - 48) else none

/-- The value of a string of decimal digits, most significant first. -/
def digitsVal (cs : List Char) : Option Nat :=
  cs.foldl (fun acc c => acc.bind fun a => (digitVal c).map fun v => 10 * a + v) (some 0)

def pad2 (n : Nat) : List Char := [digitChar (n / 10), digitChar n]

def pad4 (n : Nat) : List Char :=
  [digitChar (n / 1000), digitChar (n / 100), digitChar (n / 10), digitChar n]

def pad6 (n : Nat) : List Char :=
  [digitChar (n / 100000), digitChar (n / 10000), digitChar (n / 1000), digitChar (n / 100),
   digitChar (n / 10), digitChar n]

/-- The year of an ISO date: four digits for the years 0 to 9999, a sign and
six digits otherwise. -/
def yearChars (y : Int) : List Char :=
  if 0 ≤ y ∧ y ≤ 9999 then pad4 y.toNat
  else if y < 0 then '-' :: pad6 (-y).toNat
  else '+' :: pad6 y.toNat

/-- The date part of `toISOString()`, that is `d.toISOString().split('T')[0]`,
of a date with time value `t`: the UTC date. -/
def isoDate (t : Int) : String :=
  String.mk (yearChars (YearFromTime t) ++
    '-' :: (pad2 (MonthFromTime t + 1).toNat ++ '-' :: pad2 (DateFromTime t).toNat))

/-- The time value of the UTC date `y`-`m`-`d` (month 1 = January), if it is a
date of the calendar. -/
def dateOfFields (y : Int) (m d : Nat) : Option Int :=
  if 1 ≤ m ∧ m ≤ 12 ∧ 1 ≤ d ∧ (d : Int) ≤ DaysInMonth y m then
    TimeClip (MakeDate (MakeDay y ((m : Int) - 1) d) 0)
  else none

/-- The year of a date string and the characters that follow it: four digits,
or a sign and six digits (`-000000` is not a year). -/
def parseYear (cs : List Char) : Option (Int × List Char) :=
  if cs.head? = some '+' then
    if 6 ≤ (cs.drop 1).length then
      (digitsVal ((cs.drop 1).take 6)).map fun (y : Nat) => ((y : Int), cs.drop 7)
    else none
  else if cs.head? = some '-' then
    if 6 ≤ (cs.drop 1).length then
      (digitsVal ((cs.drop 1).take 6)).bind fun (y : Nat) =>
        if y = 0 then none else some (-(y : Int), cs.drop 7)
    else none
  else if 4 ≤ cs.length then
    (digitsVal (cs.take 4)).map fun (y : Nat) => ((y : Int), cs.drop 4)
  else none

/-- The month and day that follow the year of a date string: nothing, `-MM`
or `-MM-DD`. -/
def parseMonthDay (y : Int) (rest : List Char) : Option Int :=
  if rest.length = 0 then dateOfFields y 1 1
  else if rest.length = 3 ∧ rest.head? = some '-' then
    (digitsVal (rest.drop 1)).bind fun m => dateOfFields y m 1
  else if rest.length = 6 ∧ rest.head? = some '-' ∧ (rest.drop 3).head? = some '-' then
    (digitsVal ((rest.drop 1).take 2)).bind fun m =>
      (digitsVal (rest.drop 4)).bind fun d => dateOfFields y m d
  else none

/-- The time value of `new Date(s)` for the date-only forms of the ECMAScript
date string format (`YYYY`, `YYYY-MM`, `YYYY-MM-DD`, and the same with an
expanded year `±YYYYYY`), which denote midnight UTC.  Every other string is
read as an invalid date (`none`). -/
def parseDate (s : String) : Option Int :=
  (parseYear s.data).bind fun yr => parseMonthDay yr.1 yr.2

/-! ## The mock generators of the dashboard (`Dashboard.js`) -/

/-- The `for` loop of `generateDateRange`: `d` is the loop variable, `e` the
time value of `end`; the first argument bounds the number of iterations. -/
def dateLoop (tz : TimeZone) (e : Int) : Nat → Option Int → List String
  | 0, _ => []
  | _ + 1, none => []
  | fuel + 1, some d =>
      if d ≤ e then isoDate d :: dateLoop tz e fuel (setDate tz d (getDate tz d + 1))
      else []

/-- Function `generateDateRange` of `Dashboard.js`.  The loop variable advances by
at least a millisecond in every iteration (`TimeZone.forward`), so that
`e - s + 1` iterations are enough (`dateLoop_fuel`). -/
def generateDateRange (tz : TimeZone) (startDate endDate : String) : List String :=
  match parseDate startDate, parseDate endDate with
  | some s, some e => dateLoop tz e (e - s + 1).toNat (some s)
  | _, _ => []

/-! ### Numbers

A finite JavaScript number is the rational it denotes and `none` is `NaN`.
The floating-point arithmetic of the host is a parameter: `fl` rounds the exact
result of an operation to a number, `sin` and `cos` are the host's
`Math.sin` and `Math.cos`. -/

/-- The arithmetic of the host.  Rounding is monotone and exact on the integers
up to `2^53`; sines and cosines lie between -1 and 1. -/
structure MathHost where
  sin : ℚ → ℚ
  cos : ℚ → ℚ
  fl : ℚ → ℚ
  sin_range : ∀ x, -1 ≤ sin x ∧ sin x ≤ 1
  cos_range : ∀ x, -1 ≤ cos x ∧ cos x ≤ 1
  fl_mono : ∀ x y, x ≤ y → fl x ≤ fl y
  fl_int : ∀ n : Int, -9007199254740992 ≤ n → n ≤ 9007199254740992 → fl n = n

/-- An exact host: no rounding, and `x - x^3/6` cut to `[-1, 1]` for the sine,
`1 - x^2/2` cut to `[-1, 1]` for the cosine. -/
def exactHost : MathHost where
  sin := fun x => max (-1) (min 1 (x - x ^ 3 / 6))
  cos := fun x => max (-1) (min 1 (1 - x ^ 2 / 2))
  fl := fun x => x
  sin_range := fun x => ⟨le_max_left _ _, max_le (by norm_num) (min_le_left _ _)⟩
  cos_range := fun x => ⟨le_max_left _ _, max_le (by norm_num) (min_le_left _ _)⟩
  fl_mono := fun _ _ h => h
  fl_int := fun _ _ _ => rfl

/-- Function `Math.round`: the nearest integer, halves upwards. -/
def mathRound (x : ℚ) : Int := ⌊x + 1 / 2⌋

/-- Method `Array.prototype.map` with a callback of the element and its index, from
index `k` on. -/
def mapFrom {α β : Type} (f : α → Nat → β) : Nat → List α → List β
  | _, [] => []
  | k, a :: as => f a k :: mapFrom f (k + 1) as

/-- Method `Array.prototype.map` with a callback of the element and its index. -/
def arrayMap {α β : Type} (f : α → Nat → β) (l : List α) : List β := mapFrom f 0 l

/-- A series of the mock generators: `{ labels, data }`. -/
structure Series where
  labels : List String
  data : List (Option ℚ)

/-- The base revenue of a day of the week (`generateRevenueData`). -/
def baseRevenue (dayOfWeek : Int) : ℚ :=
  if dayOfWeek = 0 ∨ dayOfWeek = 6 then 1200
  else if dayOfWeek = 1 then 1800
  else 1500

/-- The callback of `dates.map` in `generateRevenueData`: the revenue of the
label `date` at position `index`. -/
def revenueValue (tz : TimeZone) (h : MathHost) (date : String) (index : Nat) : Option ℚ :=
  match parseDate date, charCodeAt date 8 with
  | some dateObj, some code =>
      let dayOfWeek := getDay tz dateObj
      let dayOfMonth := getDate tz dateObj
      let variation :=
        h.fl (h.fl (h.fl (h.sin (h.fl ((index : ℚ) * h.fl (8 / 10))) * 300)
                  + h.fl (h.cos (h.fl ((dayOfMonth : ℚ) * h.fl (3 / 10))) * 150))
              + ((code % 200 : Nat) : ℚ))
      some (h.fl ((mathRound (h.fl (h.fl (baseRevenue dayOfWeek + variation) * 100)) : ℚ) / 100))
  | _, _ => none

/-- Function `generateRevenueData` of `Dashboard.js`. -/
def generateRevenueData (tz : TimeZone) (h : MathHost) (startDate endDate : String) : Series :=
  let dates := generateDateRange tz startDate endDate
  { labels := dates, data := arrayMap (revenueValue tz h) dates }

/-- The base number of orders of a day of the week (`generateOrdersData`). -/
def baseOrders (dayOfWeek : Int) : Int :=
  if dayOfWeek = 0 ∨ dayOfWeek = 6 then 1
  else if dayOfWeek = 1 ∨ dayOfWeek = 5 then 5
  else 3

/-- The callback of `dates.map` in `generateOrdersData`. -/
def ordersValue (tz : TimeZone) (h : MathHost) (date : String) (index : Nat) : Option ℚ :=
  match parseDate date, charCodeAt date 8 with
  | some dateObj, some code =>
      let dayOfWeek := getDay tz dateObj
      let dayOfMonth := getDate tz dateObj
      let variation : Int :=
        ⌊h.fl (h.fl (h.fl (h.sin (h.fl ((index : ℚ) * h.fl (12 / 10))) * 3)
                  + h.fl (h.cos (h.fl ((dayOfMonth : ℚ) * h.fl (4 / 10))) * 2))
              + ((code % 4 : Nat) : ℚ))⌋
      some (max 0 (h.fl ((baseOrders dayOfWeek : ℚ) + (variation : ℚ))))
  | _, _ => none

/-- Function `generateOrdersData` of `Dashboard.js`. -/
def generateOrdersData (tz : TimeZone) (h : MathHost) (startDate endDate : String) : Series :=
  let dates := generateDateRange tz startDate endDate
  { labels := dates, data := arrayMap (ordersValue tz h) dates }

/-! ## JavaScript values -/

/-- A JavaScript value: what `response.json()` decodes to, and what the state
of a component holds.  The fields of an object are its own properties, in
order, with distinct keys. -/
inductive JsVal where
  | undefined
  | null
  | bool (b : Bool)
  | num (q : ℚ)
  | nan
  | str (s : String)
  | arr (items : List JsVal)
  | obj (fields : List (String × JsVal))

/-- The conversions between strings and numbers of the language that the
embedding does not spell out: `Number.prototype.toString` of a number that is
not an integer below `2^53` in absolute value (the shortest digits that read
back as the number, in exponent notation from `10^21` on), the conversion of
a string to a number (`none` is `NaN`), and `String.prototype.toLowerCase`. -/
structure Builtins where
  doubleToString : ℚ → String
  stringToNumber : String → Option ℚ
  toLowerCase : String → String

/-- The decimal digits of `n`; the first argument bounds their number. -/
def natDigits : Nat → Nat → List Char
  | 0, n => [digitChar n]
  | fuel + 1, n => if n < 10 then [digitChar n] else natDigits fuel (n / 10) ++ [digitChar n]

/-- The decimal representation of an integer. -/
def intToString (n : Int) : String :=
  if n < 0 then String.mk ('-' :: natDigits n.natAbs n.natAbs)
  else String.mk (natDigits n.natAbs n.natAbs)

/-- The string of a number (`Number.prototype.toString`): an integer below
`2^53` in absolute value is written with its decimal digits. -/
def numberToString (b : Builtins) (q : ℚ) : String :=
  if q.den = 1 ∧ q.num.natAbs < 2 ^ 53 then intToString q.num else b.doubleToString q

mutual
/-- The string of a value, as in a template literal. -/
def toStr (b : Builtins) : JsVal → String
  | .undefined => "undefined"
  | .null => "null"
  | .bool true => "true"
  | .bool false => "false"
  | .num q => numberToString b q
  | .nan => "NaN"
  | .str s => s
  | .arr items => joinStr b items
  | .obj _ => "[object Object]"
/-- The elements of an array joined by commas (`Array.prototype.join`); `null` and
`undefined` are joined as empty strings. -/
def joinStr (b : Builtins) : List JsVal → String
  | [] => ""
  | [.null] => ""
  | [.undefined] => ""
  | [x] => toStr b x
  | .null :: y :: rest => "," ++ joinStr b (y :: rest)
  | .undefined :: y :: rest => "," ++ joinStr b (y :: rest)
  | x :: y :: rest => toStr b x ++ "," ++ joinStr b (y :: rest)
end

/-- The truth value of a value in a condition. -/
def truthy : JsVal → Bool
  | .undefined => false
  | .null => false
  | .bool b => b
  | .num q => decide (q ≠ 0)
  | .nan => false
  | .str s => decide (s ≠ "")
  | .arr _ => true
  | .obj _ => true

/-- The operator `||`. -/
def jsOr (a b : JsVal) : JsVal := if truthy a then a else b

/-- The value of `v.p`; `none` is the `TypeError` of reading a property of
`null` or `undefined`.  Of the inherited properties only `length` is modelled. -/
def getProp (v : JsVal) (p : String) : Option JsVal :=
  match v with
  | .undefined => none
  | .null => none
  | .obj fields => some ((fields.lookup p).getD .undefined)
  | .arr items => some (if p = "length" then .num items.length else .undefined)
  | .str s => some (if p = "length" then .num (jsLength s) else .undefined)
  | _ => some .undefined

/-- The number of a value (`ToNumber`); `none` is `NaN`. -/
def toNumber (b : Builtins) : JsVal → Option ℚ
  | .undefined => none
  | .null => some 0
  | .bool true => some 1
  | .bool false => some 0
  | .num q => some q
  | .nan => none
  | .str s => b.stringToNumber s
  | .arr items => b.stringToNumber (toStr b (.arr items))
  | .obj _ => none

/-- The comparison `v > 0`. -/
def gtZero (b : Builtins) (v : JsVal) : Bool :=
  match toNumber b v with
  | some q => decide (0 < q)
  | none => false

/-- White space and line terminators: what `\s` matches and `trim` removes. -/
def isWhitespace (c : Char) : Bool :=
  let n := c.toNat
  (9 ≤ n && n ≤ 13) || n = 32 || n = 160 || n = 5760 || (8192 ≤ n && n ≤ 8202) ||
    n = 8232 || n = 8233 || n = 8239 || n = 8287 || n = 12288 || n = 65279

/-- Whether the characters `p` start the characters `s`. -/
def startsWith : List Char → List Char → Bool
  | [], _ => true
  | _ :: _, [] => false
  | a :: p, c :: s => a == c && startsWith p s

/-- Method `String.prototype.includes`. -/
def includes (s sub : String) : Bool := s.data.tails.any (startsWith sub.data)

/-- The value of a hexadecimal digit. -/
def hexVal (c : Char) : Option Nat :=
  let n := c.toNat
  if 48 ≤ n ∧ n ≤ 57 then some (n - 48)
  else if 97 ≤ n ∧ n ≤ 102 then some (n - 87)
  else if 65 ≤ n ∧ n ≤ 70 then some (n - 55)
  else none

/-- The integer that `parseInt` with one argument reads: leading white space, a
sign, and the longest run of digits, decimal or after `0x` hexadecimal; `none`
is `NaN`. -/
def parseIntMath (s : String) : Option Int :=
  let cs := s.data.dropWhile isWhitespace
  let neg := cs.head? = some '-'
  let ds := if cs.head? = some '-' ∨ cs.head? = some '+' then cs.drop 1 else cs
  let hex := ds.take 2 = ['0', 'x'] ∨ ds.take 2 = ['0', 'X']
  let digits :=
    if hex then (ds.drop 2).takeWhile (fun c => (hexVal c).isSome)
    else ds.takeWhile (fun c => (digitVal c).isSome)
  let value : Nat :=
    if hex then digits.foldl (fun acc c => 16 * acc + (hexVal c).getD 0) 0
    else digits.foldl (fun acc c => 10 * acc + (digitVal c).getD 0) 0
  if digits = [] then none
  else if neg then some (-(value : Int)) else some (value : Int)

/-- Function `parseInt` with one argument: the number nearest to the integer
read, as the arithmetic of the host rounds it; `none` is `NaN`. -/
def parseInt (h : MathHost) (s : String) : Option ℚ :=
  (parseIntMath s).map fun (n : Int) => h.fl (n : ℚ)

/-- The comparison `v === parseInt(...)`. -/
def strictEqNumber (v : JsVal) (n : Option ℚ) : Bool :=
  match v, n with
  | .num q, some k => decide (q = k)
  | _, _ => false

/-! ## Network calls -/

/-- A call of `fetch`.  The URL is split into its origin and the rest. -/
structure Request where
  method : String
  origin : String
  path : String
  authorization : Option String
  contentType : Option String
  body : Option JsVal

/-- The outcome of awaiting `fetch(...)` and then `response.json()`: the
request fails (no response), or there is a response, with `response.ok` and
a body that is JSON or not. -/
inductive Response where
  | networkError
  | undecodable (ok : Bool)
  | json (ok : Bool) (body : JsVal)

/-- The backend of the literals `http://localhost:3000/...`. -/
def localOrigin : String := "http://localhost:3000"

/-- The truth value of the `token` of a component: `null` and the empty string
are false. -/
def tokenPresent (token : Option String) : Bool :=
  match token with
  | none => false
  | some t => decide (t ≠ "")

/-- The header `Authorization: Bearer ${token}`. -/
def bearer (token : Option String) : String :=
  "Bearer " ++ (match token with | none => "null" | some t => t)

/-- A `GET` request with the bearer token. -/
def getRequest (origin path : String) (token : Option String) : Request :=
  { method := "GET", origin := origin, path := path, authorization := some (bearer token),
    contentType := none, body := none }

/-! ## The dashboard (`Dashboard.js`)

The state of the component is a record of its `useState` cells (the cell
`userInfo`, which no property below reads, is left out).  An effect or an event
handler is the list of the actions it performs, in order, given the outcomes of
the network calls it awaits. -/

/-- A date range of the dashboard: `{ from, to }`, here `fromDate` and `toDate`. -/
structure DateRange where
  fromDate : String
  toDate : String

/-- A data set of a chart (the colours are left out). -/
structure Dataset where
  label : String
  data : JsVal

/-- The data of a chart: `{ labels, datasets }`. -/
structure ChartData where
  labels : JsVal
  datasets : List Dataset

/-- The state of `Dashboard`. -/
structure DashboardState where
  stores : JsVal
  selectedStore : JsVal
  stats : JsVal
  syncing : Bool
  syncMessage : String
  refreshTrigger : Nat
  dateRange : DateRange
  ordersDateRange : DateRange
  revenueChartData : ChartData
  ordersChartData : ChartData

/-- The state of `Dashboard` when it is mounted. -/
def DashboardState.initial : DashboardState :=
  { stores := .arr [], selectedStore := .null, stats := .null, syncing := false,
    syncMessage := "", refreshTrigger := 0,
    dateRange := { fromDate := "2025-09-10", toDate := "2025-09-14" },
    ordersDateRange := { fromDate := "2025-09-10", toDate := "2025-09-14" },
    revenueChartData := { labels := .arr [], datasets := [] },
    ordersChartData := { labels := .arr [], datasets := [] } }

/-- What an effect or a handler of `Dashboard` does: it sets a state cell, calls
`fetch`, logs an error, or starts the timer whose callback increments
`refreshTrigger`. -/
inductive Action where
  | setStores (v : JsVal)
  | setSelectedStore (v : JsVal)
  | setStats (v : JsVal)
  | setSyncing (b : Bool)
  | setSyncMessage (s : String)
  | setRevenueChartData (c : ChartData)
  | setOrdersChartData (c : ChartData)
  | fetch (r : Request)
  | consoleError
  | setTimeoutRefresh (delay : Nat)

/-- The state after an action. -/
def DashboardState.step (st : DashboardState) : Action → DashboardState
  | .setStores v => { st with stores := v }
  | .setSelectedStore v => { st with selectedStore := v }
  | .setStats v => { st with stats := v }
  | .setSyncing b => { st with syncing := b }
  | .setSyncMessage s => { st with syncMessage := s }
  | .setRevenueChartData c => { st with revenueChartData := c }
  | .setOrdersChartData c => { st with ordersChartData := c }
  | .fetch _ => st
  | .consoleError => st
  | .setTimeoutRefresh _ => st

/-- The state after a list of actions. -/
def DashboardState.run (st : DashboardState) (actions : List Action) : DashboardState :=
  actions.foldl DashboardState.step st

/-- The callback of the timer of `handleSync`: `setRefreshTrigger(prev => prev + 1)`. -/
def DashboardState.refreshTimerFired (st : DashboardState) : DashboardState :=
  { st with refreshTrigger := st.refreshTrigger + 1 }

/-- The constant `mockStats`. -/
def mockStats : JsVal :=
  .obj [("totalRevenue", .num (172189 / 100)), ("totalOrders", .num 3), ("totalCustomers", .num 4),
    ("topCustomers", .arr [
      .obj [("name", .str "Russell Winfield"), ("email", .str "Russel.winfield@example.com"),
            ("spend", .num (88595 / 100)), ("initials", .str "RW")],
      .obj [("name", .str "Demo Customer"), ("email", .str "demo123customer@gmail.com"),
            ("spend", .num (82594 / 100)), ("initials", .str "DC")],
      .obj [("name", .str "Ayumu Hirano"), ("email", .str "ayumu.hirano@example.com"),
            ("spend", .num 10), ("initials", .str "AH")]])]

/-- The string of `selectedStore.id` in a URL. -/
def storeIdString (b : Builtins) (selectedStore : JsVal) : String :=
  toStr b ((getProp selectedStore "id").getD .undefined)

/-- The request of `/me`. -/
def meRequest (token : Option String) : Request := getRequest localOrigin "/me" token

/-- The request of `/stores`. -/
def storesRequest (token : Option String) : Request := getRequest localOrigin "/stores" token

/-- The request of `/stats/${selectedStore.id}`. -/
def statsRequest (b : Builtins) (token : Option String) (selectedStore : JsVal) : Request :=
  getRequest localOrigin ("/stats/" ++ storeIdString b selectedStore) token

/-- The request of `/sync/${selectedStore.id}`. -/
def syncRequest (b : Builtins) (token : Option String) (selectedStore : JsVal) : Request :=
  getRequest localOrigin ("/sync/" ++ storeIdString b selectedStore) token

/-- The request of the revenue series. -/
def revenueRequest (b : Builtins) (token : Option String) (selectedStore : JsVal)
    (range : DateRange) : Request :=
  getRequest localOrigin ("/stats/" ++ storeIdString b selectedStore ++ "/revenue?startDate=" ++
    range.fromDate ++ "&endDate=" ++ range.toDate) token

/-- The request of the orders series. -/
def ordersRequest (b : Builtins) (token : Option String) (selectedStore : JsVal)
    (range : DateRange) : Request :=
  getRequest localOrigin ("/stats/" ++ storeIdString b selectedStore ++ "/orders?startDate=" ++
    range.fromDate ++ "&endDate=" ++ range.toDate) token

/-- The effect that fetches the stores of the user (`useEffect` on `token`).
In `data[0]` of a string, a first character outside the basic plane stands for
its first code unit. -/
def storesEffect (b : Builtins) (token : Option String) (resp : Response) : List Action :=
  if !tokenPresent token then []
  else
    .fetch (storesRequest token) ::
      (match resp with
       | .networkError => [.consoleError]
       | .undecodable _ => [.consoleError]
       | .json _ data =>
           .setStores data ::
             (match getProp data "length" with
              | none => [.consoleError]
              | some len =>
                  if gtZero b len then
                    [.setSelectedStore (match data with
                      | .arr (first :: _) => first
                      | .obj fields => (fields.lookup "0").getD .undefined
                      | .str s => (match s.data with
                          | c :: _ => .str (String.mk [c])
                          | [] => .undefined)
                      | _ => .undefined)]
                  else []))

/-- The effect that fetches the statistics of the selected store. -/
def statsEffect (b : Builtins) (token : Option String) (st : DashboardState)
    (resp : Response) : List Action :=
  if !truthy st.selectedStore || !tokenPresent token then []
  else
    .fetch (statsRequest b token st.selectedStore) ::
      (match resp with
       | .networkError => [.consoleError, .setStats mockStats]
       | .undecodable _ => [.consoleError, .setStats mockStats]
       | .json _ data => [.setStats data])

/-- The marker of a successful synchronisation, as the source file spells it. -/
def successMark : String := "âœ…"

/-- The marker of a failed synchronisation, as the source file spells it. -/
def failureMark : String := "âŒ"

/-- The `catch` block of `handleSync`. -/
def syncCatch : List Action :=
  [.consoleError, .setSyncMessage (failureMark ++ " Network error during sync")]

/-- The handler `handleSync`: `sync` is the outcome of the call of `/sync`,
`stats` the outcome of the call of `/stats` that follows a success. -/
def handleSync (b : Builtins) (token : Option String) (st : DashboardState)
    (sync stats : Response) : List Action :=
  if !truthy st.selectedStore || !tokenPresent token then []
  else
    [.setSyncing true, .setSyncMessage "", .fetch (syncRequest b token st.selectedStore)] ++
      (match sync with
       | .networkError => syncCatch
       | .undecodable _ => syncCatch
       | .json ok data =>
           if ok then
             (match getProp data "message" with
              | none => syncCatch
              | some message =>
                  [.setSyncMessage (successMark ++ " " ++ toStr b message),
                   .fetch (statsRequest b token st.selectedStore)] ++
                    (match stats with
                     | .networkError => syncCatch
                     | .undecodable _ => syncCatch
                     | .json _ statsData => [.setStats statsData, .setTimeoutRefresh 500]))
           else
             (match getProp data "error" with
              | none => syncCatch
              | some error =>
                  [.setSyncMessage (failureMark ++ " " ++
                    toStr b (jsOr error (.str "Sync failed")))])) ++
      [.setSyncing false]

/-- The value of a series of a mock generator. -/
def Series.dataValue (s : Series) : JsVal :=
  .arr (s.data.map fun v => match v with | some q => .num q | none => .nan)

/-- The labels of a series of a mock generator. -/
def Series.labelsValue (s : Series) : JsVal := .arr (s.labels.map .str)

/-- The chart data of a series of a mock generator. -/
def mockChart (label : String) (s : Series) : ChartData :=
  { labels := s.labelsValue, datasets := [{ label := label, data := s.dataValue }] }

/-- The function `fetchRevenueData` of the revenue effect. -/
def fetchRevenueData (tz : TimeZone) (h : MathHost) (b : Builtins) (token : Option String)
    (st : DashboardState) (resp : Response) : List Action :=
  if !truthy st.selectedStore || !tokenPresent token then []
  else
    let fallback : List Action :=
      [.consoleError, .setRevenueChartData (mockChart "Daily Revenue ($)"
        (generateRevenueData tz h st.dateRange.fromDate st.dateRange.toDate))]
    .fetch (revenueRequest b token st.selectedStore st.dateRange) ::
      (match resp with
       | .networkError => fallback
       | .undecodable _ => fallback
       | .json _ data =>
           match getProp data "labels", getProp data "data" with
           | some labels, some series =>
               [.setRevenueChartData
                 { labels := labels, datasets := [{ label := "Daily Revenue ($)", data := series }] }]
           | _, _ => fallback)

/-- The function `fetchOrdersData` of the orders effect. -/
def fetchOrdersData (tz : TimeZone) (h : MathHost) (b : Builtins) (token : Option String)
    (st : DashboardState) (resp : Response) : List Action :=
  if !truthy st.selectedStore || !tokenPresent token then []
  else
    let fallback : List Action :=
      [.consoleError, .setOrdersChartData (mockChart "Daily Orders"
        (generateOrdersData tz h st.ordersDateRange.fromDate st.ordersDateRange.toDate))]
    .fetch (ordersRequest b token st.selectedStore st.ordersDateRange) ::
      (match resp with
       | .networkError => fallback
       | .undecodable _ => fallback
       | .json _ data =>
           match getProp data "labels", getProp data "data" with
           | some labels, some series =>
               [.setOrdersChartData
                 { labels := labels, datasets := [{ label := "Daily Orders", data := series }] }]
           | _, _ => fallback)

/-- Method `Array.prototype.find` with the callback `s => s.id === id`; the outer
`none` is a `TypeError`, `undefined` is the result when no element matches. -/
def findById (id : Option ℚ) : List JsVal → Option JsVal
  | [] => some .undefined
  | s :: rest =>
      match getProp s "id" with
      | none => none
      | some v => if strictEqNumber v id then some s else findById id rest

/-- The `onChange` handler of the store selector:
`setSelectedStore(stores.find((s) => s.id === parseInt(e.target.value)))`. -/
def onStoreChange (h : MathHost) (st : DashboardState) (value : String) : List Action :=
  match st.stores with
  | .arr items =>
      (match findById (parseInt h value) items with
       | some v => [.setSelectedStore v]
       | none => [])
  | _ => []

/-- The `value` of the option of a store in the selector: the string of its id. -/
def optionValue (b : Builtins) (store : JsVal) : String := storeIdString b store

/-- What `Dashboard` renders. -/
inductive DashboardView where
  | pleaseLogIn
  | loadingStores
  | main
  deriving DecidableEq

/-- The guards of the rendering of `Dashboard`; `none` is the `TypeError` of
`stores.length` when `stores` is `null`. -/
def dashboardView (token : Option String) (st : DashboardState) : Option DashboardView :=
  if !tokenPresent token then some .pleaseLogIn
  else
    match getProp st.stores "length" with
    | none => none
    | some len => if !truthy len then some .loadingStores else some .main

/-- The attribute `disabled` of the sync button. -/
def syncDisabled (st : DashboardState) : Bool := st.syncing || !truthy st.selectedStore

/-- The class of the inline sync message, if the message is shown. -/
def syncMessageClass (st : DashboardState) : Option String :=
  if st.syncMessage = "" then none
  else if includes st.syncMessage successMark then some "sync-success"
  else some "sync-error"

/-! ## The sign-up form (`Signup.js`) -/

/-- The state of `Signup`. -/
structure SignupState where
  email : String
  password : String
  confirmPassword : String
  loading : Bool
  error : JsVal
  success : Bool

/-- What `handleSubmit` of `Signup` does. -/
inductive SignupAction where
  | setLoading (b : Bool)
  | setError (v : JsVal)
  | setSuccess (b : Bool)
  | fetch (r : Request)
  | setTimeoutSwitchToLogin (delay : Nat)

/-- The state after an action. -/
def SignupState.step (st : SignupState) : SignupAction → SignupState
  | .setLoading b => { st with loading := b }
  | .setError v => { st with error := v }
  | .setSuccess b => { st with success := b }
  | .fetch _ => st
  | .setTimeoutSwitchToLogin _ => st

/-- The state after a list of actions. -/
def SignupState.run (st : SignupState) (actions : List SignupAction) : SignupState :=
  actions.foldl SignupState.step st

/-- The request of `/signup`. -/
def signupRequest (email password : String) : Request :=
  { method := "POST", origin := localOrigin, path := "/signup", authorization := none,
    contentType := some "application/json",
    body := some (.obj [("email", .str email), ("password", .str password)]) }

/-- The handler `handleSubmit` of `Signup`; `resp` is the outcome of the call of
`/signup`. -/
def Signup.handleSubmit (st : SignupState) (resp : Response) : List SignupAction :=
  [.setLoading true, .setError (.str ""), .setSuccess false] ++
    (if st.password ≠ st.confirmPassword then
      [.setError (.str "Passwords do not match"), .setLoading false]
    else if jsLength st.password < 6 then
      [.setError (.str "Password must be at least 6 characters long"), .setLoading false]
    else
      .fetch (signupRequest st.email st.password) ::
        (match resp with
         | .networkError => [.setError (.str "Network error. Please try again.")]
         | .undecodable _ => [.setError (.str "Network error. Please try again.")]
         | .json ok data =>
             if ok then [.setSuccess true, .setTimeoutSwitchToLogin 2000]
             else
               match getProp data "error" with
               | none => [.setError (.str "Network error. Please try again.")]
               | some error => [.setError (jsOr error (.str "Signup failed"))]) ++
        [.setLoading false])

/-- Whether an action is a network call. -/
def SignupAction.isFetch : SignupAction → Bool
  | .fetch _ => true
  | _ => false

/-! ## The application (`App.js`) -/

/-- The state of `App`, with `storage`, the entry `token` of `localStorage`. -/
structure AppState where
  view : String
  token : Option String
  stores : JsVal
  storage : Option String

/-- The state of `App` on a fresh load: `token` is
`localStorage.getItem("token") || null`. -/
def AppState.initial (storage : Option String) : AppState :=
  { view := "login",
    token := (match storage with
      | some t => if t = "" then none else some t
      | none => none),
    stores := .arr [],
    storage := storage }

/-- What the effect of `App` does. -/
inductive AppAction where
  | setStores (v : JsVal)
  | setView (v : String)
  | fetch (r : Request)
  | consoleError

/-- The state after an action. -/
def AppState.step (st : AppState) : AppAction → AppState
  | .setStores v => { st with stores := v }
  | .setView v => { st with view := v }
  | .fetch _ => st
  | .consoleError => st

/-- The state after a list of actions. -/
def AppState.run (st : AppState) (actions : List AppAction) : AppState :=
  actions.foldl AppState.step st

/-- The effect `fetchStores` of `App` (`useEffect` on `token`). -/
def fetchStores (st : AppState) (resp : Response) : List AppAction :=
  if !tokenPresent st.token then []
  else
    .fetch (storesRequest st.token) ::
      (match resp with
       | .networkError => [.consoleError]
       | .undecodable _ => [.consoleError]
       | .json _ data => [.setStores data, .setView "dashboard"])

/-- The handler `handleLoginSuccess`. -/
def handleLoginSuccess (st : AppState) (jwt : String) : AppState :=
  { st with token := some jwt, storage := some jwt }

/-- The handler `handleLogout`. -/
def handleLogout (st : AppState) : AppState :=
  { st with token := none, view := "login", storage := none }

/-- What `App` renders. -/
inductive Screen where
  | login
  | signup
  | dashboard
  deriving DecidableEq

/-- The rendering of `App`. -/
def appScreen (st : AppState) : Screen :=
  if !tokenPresent st.token then (if st.view = "login" then .login else .signup)
  else .dashboard

/-! ## The store form (`TenantForm.js`) -/

/-- The state of `TenantForm` that `handleNameChange` sets. -/
structure TenantFormState where
  name : String
  storeUrl : String

/-- Method `String.prototype.trim`. -/
def trim (s : String) : String :=
  String.mk ((((s.data.dropWhile isWhitespace).reverse).dropWhile isWhitespace).reverse)

/-- The replacement `replace(/\s+/g, '-')` on the characters of a string: every
maximal run of white space becomes one hyphen. -/
def replaceSpaces : List Char → List Char
  | [] => []
  | c :: cs =>
      if isWhitespace c then
        match cs with
        | [] => ['-']
        | d :: _ => if isWhitespace d then replaceSpaces cs else '-' :: replaceSpaces cs
      else c :: replaceSpaces cs

/-- The handler `handleNameChange`; `storeName` is `e.target.value`. -/
def handleNameChange (b : Builtins) (st : TenantFormState) (storeName : String) :
    TenantFormState :=
  if trim storeName ≠ "" then
    let urlFriendlyName := String.mk (replaceSpaces (b.toLowerCase storeName).data)
    { st with name := storeName, storeUrl := "https://" ++ urlFriendlyName ++ ".myshopify.com" }
  else
    { st with name := storeName, storeUrl := "" }

/-- The backend of the literal of `handleSubmit` of `TenantForm`. -/
def tenantOrigin : String := "https://xeno-backend-7jfm.onrender.com"

/-- The request of `/tenants` of `handleSubmit` of `TenantForm`; `token` is
`localStorage.getItem("token")`. -/
def tenantsRequest (token : Option String) (name storeUrl apiToken : String) : Request :=
  { method := "POST", origin := tenantOrigin, path := "/tenants",
    authorization := some (bearer token), contentType := some "application/json",
    body := some (.obj [("name", .str name), ("storeUrl", .str storeUrl),
      ("apiToken", .str apiToken)]) }

/-- Every network call of the client, for given arguments. -/
def allRequests (b : Builtins) (token : Option String) (selectedStore : JsVal)
    (dateRange ordersDateRange : DateRange) (email password name storeUrl apiToken : String) :
    List Request :=
  [signupRequest email password, storesRequest token, meRequest token,
   statsRequest b token selectedStore, revenueRequest b token selectedStore dateRange,
   ordersRequest b token selectedStore ordersDateRange, syncRequest b token selectedStore,
   tenantsRequest token name storeUrl apiToken]

/-! ## Hosts and states of the examples -/

/-- The time zone of New York in the first half of 2025: five hours behind UTC
until 9 March 2025, 07:00 UTC, four hours behind afterwards. -/
def newYork2025 : TimeZone :=
  changingZone (-18000000) (-14400000) 1741503600000 (by decide)

/-- The time zone of Berlin in the first half of 2025: one hour ahead of UTC
until 30 March 2025, 01:00 UTC, two hours ahead afterwards. -/
def berlin2025 : TimeZone :=
  changingZone 3600000 7200000 1743296400000 (by decide)

/-- Builtins for the examples, in which no string is converted. -/
def plainBuiltins : Builtins :=
  { doubleToString := fun _ => "", stringToNumber := fun _ => none, toLowerCase := fun s => s }

/-- A store of the examples. -/
def demoStore : JsVal := .obj [("id", .num 7), ("name", .str "Demo")]

/-- A dashboard with one store, which is selected. -/
def demoDashboard : DashboardState :=
  { DashboardState.initial with stores := .arr [demoStore], selectedStore := demoStore }

/-- A sign-up form with the password "abc" and the confirmation "abd". -/
def mismatchSignup : SignupState :=
  { email := "a@example.com", password := "abc", confirmPassword := "abd", loading := false,
    error := .str "", success := false }

/-- A sign-up form with the password "abcde" and the same confirmation. -/
def shortSignup : SignupState :=
  { email := "a@example.com", password := "abcde", confirmPassword := "abcde", loading := false,
    error := .str "", success := false }

/-- The application after a login with the token "abc123" and the fetch of a
list of one store. -/
def loggedInApp : AppState :=
  (handleLoginSuccess (AppState.initial none) "abc123").run
    (fetchStores (handleLoginSuccess (AppState.initial none) "abc123")
      (.json true (.arr [demoStore])))

/-- Builtins whose `Number.prototype.toString` writes `10^21` and `2^64` as the
language does: in exponent notation, and with the shortest digits that read
back as the number. -/
def exponentBuiltins : Builtins :=
  { doubleToString := fun q =>
      if q = 1000000000000000000000 then "1e+21"
      else if q = 18446744073709551616 then "18446744073709552000"
      else "",
    stringToNumber := fun _ => none, toLowerCase := fun s => s }

/-- A store whose id is `2^64`. -/
def hugeIdStore : JsVal := .obj [("id", .num 18446744073709551616), ("name", .str "Huge")]

/-- A store whose id is `10^21`. -/
def bigIdStore : JsVal := .obj [("id", .num 1000000000000000000000), ("name", .str "Big")]

/-- A dashboard whose only store has the id `10^21`. -/
def bigIdDashboard : DashboardState :=
  { DashboardState.initial with stores := .arr [bigIdStore], selectedStore := bigIdStore }

/-- A host five hours behind UTC all year. -/
def utcMinus5 : TimeZone := fixedZone (-18000000)

/-- The maximal runs of white space and of other characters of a string, in
order. -/
def runs : List Char → List (List Char)
  | [] => []
  | c :: cs =>
      match runs cs with
      | (d :: r) :: rs =>
          if isWhitespace c = isWhitespace d then (c :: d :: r) :: rs
          else [c] :: (d :: r) :: rs
      | rs => [c] :: rs

/-- The characters of a string with every maximal run of white space replaced
by a single hyphen: the replacement of `handleNameChange` as the
specification words it. -/
def replaceRuns (cs : List Char) : List Char :=
  (runs cs).flatMap fun r =>
    match r with
    | c :: _ => if isWhitespace c then ['-'] else r
    | [] => []

/-! ## The cards of the dashboard -/

/-- The optional chaining `v?.p`: `undefined` when `v` is `null` or
`undefined`, the property otherwise. -/
def getPropOptional (v : JsVal) (p : String) : JsVal := (getProp v p).getD .undefined

/-- The child of the Total Orders card:
`stats?.totalOrders || mockStats.totalOrders`. -/
def totalOrdersCard (st : DashboardState) : JsVal :=
  jsOr (getPropOptional st.stats "totalOrders") ((getProp mockStats "totalOrders").getD .undefined)

/-- The child of the Total Customers card:
`stats?.totalCustomers || mockStats.totalCustomers`. -/
def totalCustomersCard (st : DashboardState) : JsVal :=
  jsOr (getPropOptional st.stats "totalCustomers")
    ((getProp mockStats "totalCustomers").getD .undefined)

mutual
/-- The text that React renders for a child: numbers and strings are text,
booleans, `null` and `undefined` render nothing, an array renders its elements;
`none` is the error of an object as a child. -/
def reactText (b : Builtins) : JsVal → Option String
  | .undefined => some ""
  | .null => some ""
  | .bool _ => some ""
  | .num q => some (numberToString b q)
  | .nan => some "NaN"
  | .str s => some s
  | .arr items => reactTexts b items
  | .obj _ => none
/-- The text that React renders for a list of children. -/
def reactTexts (b : Builtins) : List JsVal → Option String
  | [] => some ""
  | x :: xs =>
      match reactText b x, reactTexts b xs with
      | some a, some c => some (a ++ c)
      | _, _ => none
end

/-- A dashboard whose statistics count no order and twelve customers. -/
def zeroOrdersDashboard : DashboardState :=
  { demoDashboard with
    stats := .obj [("totalRevenue", .num 0), ("totalOrders", .num 0),
      ("totalCustomers", .num 12), ("topCustomers", .arr [])] }

/-! ## Lemmas on the calendar -/

theorem prop_ite {α : Type} (P : α → Prop) (c : Prop) [Decidable c] (a b : α)
    (ha : c → P a) (hb : ¬ c → P b) : P (if c then a else b) := by
  by_cases h : c
  · rw [if_pos h]; exact ha h
  · rw [if_neg h]; exact hb h

/-- The year of a day starts on or before that day. -/
theorem DayFromYear_YearFromDay_le (d : Int) : DayFromYear (YearFromDay d) ≤ d := by
  unfold YearFromDay
  simp only
  split_ifs with h
  · exact h
  · unfold DayFromYear at *
    omega

/-- The next year starts after the day. -/
theorem lt_DayFromYear_YearFromDay_succ (d : Int) : d < DayFromYear (YearFromDay d + 1) := by
  unfold YearFromDay
  simp only
  split_ifs with h
  · unfold DayFromYear at *
    omega
  · omega

theorem DayFromYear_succ (y : Int) : DayFromYear (y + 1) = DayFromYear y + DaysInYear y := by
  unfold DayFromYear DaysInYear
  split_ifs <;> omega

theorem DaysInYear_eq (y : Int) : DaysInYear y = 365 + InLeapYear y := by
  unfold InLeapYear DaysInYear
  split_ifs <;> omega

theorem InLeapYear_range (y : Int) : 0 ≤ InLeapYear y ∧ InLeapYear y ≤ 1 := by
  unfold InLeapYear
  split_ifs <;> omega

theorem DayWithinYear_range (t : Int) :
    0 ≤ DayWithinYear t ∧ DayWithinYear t < 365 + InLeapYear (YearFromTime t) := by
  have h1 := DayFromYear_YearFromDay_le (Day t)
  have h2 := lt_DayFromYear_YearFromDay_succ (Day t)
  rw [DayFromYear_succ, DaysInYear_eq] at h2
  unfold DayWithinYear YearFromTime
  omega

theorem monthOfDayWithinYear_range (dwy leap : Int) :
    0 ≤ monthOfDayWithinYear dwy leap ∧ monthOfDayWithinYear dwy leap ≤ 11 := by
  unfold monthOfDayWithinYear
  repeat' (first | (apply prop_ite (fun m : Int => 0 ≤ m ∧ m ≤ 11) <;> intro _) | decide)

theorem MonthFromTime_range (t : Int) : 0 ≤ MonthFromTime t ∧ MonthFromTime t ≤ 11 :=
  monthOfDayWithinYear_range _ _

theorem daysBeforeMonth_0 (l : Int) : daysBeforeMonth 0 l = 0 := rfl
theorem daysBeforeMonth_1 (l : Int) : daysBeforeMonth 1 l = 31 := rfl
theorem daysBeforeMonth_2 (l : Int) : daysBeforeMonth 2 l = 59 + l := rfl
theorem daysBeforeMonth_3 (l : Int) : daysBeforeMonth 3 l = 90 + l := rfl
theorem daysBeforeMonth_4 (l : Int) : daysBeforeMonth 4 l = 120 + l := rfl
theorem daysBeforeMonth_5 (l : Int) : daysBeforeMonth 5 l = 151 + l := rfl
theorem daysBeforeMonth_6 (l : Int) : daysBeforeMonth 6 l = 181 + l := rfl
theorem daysBeforeMonth_7 (l : Int) : daysBeforeMonth 7 l = 212 + l := rfl
theorem daysBeforeMonth_8 (l : Int) : daysBeforeMonth 8 l = 243 + l := rfl
theorem daysBeforeMonth_9 (l : Int) : daysBeforeMonth 9 l = 273 + l := rfl
theorem daysBeforeMonth_10 (l : Int) : daysBeforeMonth 10 l = 304 + l := rfl
theorem daysBeforeMonth_11 (l : Int) : daysBeforeMonth 11 l = 334 + l := rfl
theorem daysBeforeMonth_12 (l : Int) : daysBeforeMonth 12 l = 365 + l := rfl

/-- The month of a day of the year contains that day. -/
theorem monthOfDayWithinYear_spec (dwy leap : Int) (h0 : 0 ≤ dwy) (h1 : dwy < 365 + leap) :
    ∃ m : Int, monthOfDayWithinYear dwy leap = m ∧ 0 ≤ m ∧ m ≤ 11 ∧
      daysBeforeMonth m leap ≤ dwy ∧ dwy < daysBeforeMonth (m + 1) leap := by
  unfold monthOfDayWithinYear
  by_cases c0 : dwy < 31
  · exact ⟨0, by rw [if_pos c0], by omega, by omega, by rw [daysBeforeMonth_0]; omega, by rw [zero_add, daysBeforeMonth_1]; omega⟩
  rw [if_neg c0]
  by_cases c1 : dwy < 59 + leap
  · exact ⟨1, by rw [if_pos c1], by omega, by omega, by rw [daysBeforeMonth_1]; omega, by norm_num; rw [daysBeforeMonth_2]; omega⟩
  rw [if_neg c1]
  by_cases c2 : dwy < 90 + leap
  · exact ⟨2, by rw [if_pos c2], by omega, by omega, by rw [daysBeforeMonth_2]; omega, by norm_num; rw [daysBeforeMonth_3]; omega⟩
  rw [if_neg c2]
  by_cases c3 : dwy < 120 + leap
  · exact ⟨3, by rw [if_pos c3], by omega, by omega, by rw [daysBeforeMonth_3]; omega, by norm_num; rw [daysBeforeMonth_4]; omega⟩
  rw [if_neg c3]
  by_cases c4 : dwy < 151 + leap
  · exact ⟨4, by rw [if_pos c4], by omega, by omega, by rw [daysBeforeMonth_4]; omega, by norm_num; rw [daysBeforeMonth_5]; omega⟩
  rw [if_neg c4]
  by_cases c5 : dwy < 181 + leap
  · exact ⟨5, by rw [if_pos c5], by omega, by omega, by rw [daysBeforeMonth_5]; omega, by norm_num; rw [daysBeforeMonth_6]; omega⟩
  rw [if_neg c5]
  by_cases c6 : dwy < 212 + leap
  · exact ⟨6, by rw [if_pos c6], by omega, by omega, by rw [daysBeforeMonth_6]; omega, by norm_num; rw [daysBeforeMonth_7]; omega⟩
  rw [if_neg c6]
  by_cases c7 : dwy < 243 + leap
  · exact ⟨7, by rw [if_pos c7], by omega, by omega, by rw [daysBeforeMonth_7]; omega, by norm_num; rw [daysBeforeMonth_8]; omega⟩
  rw [if_neg c7]
  by_cases c8 : dwy < 273 + leap
  · exact ⟨8, by rw [if_pos c8], by omega, by omega, by rw [daysBeforeMonth_8]; omega, by norm_num; rw [daysBeforeMonth_9]; omega⟩
  rw [if_neg c8]
  by_cases c9 : dwy < 304 + leap
  · exact ⟨9, by rw [if_pos c9], by omega, by omega, by rw [daysBeforeMonth_9]; omega, by norm_num; rw [daysBeforeMonth_10]; omega⟩
  rw [if_neg c9]
  by_cases c10 : dwy < 334 + leap
  · exact ⟨10, by rw [if_pos c10], by omega, by omega, by rw [daysBeforeMonth_10]; omega,
      by norm_num; rw [daysBeforeMonth_11]; omega⟩
  rw [if_neg c10]
  exact ⟨11, rfl, by omega, by omega, by rw [daysBeforeMonth_11]; omega, by norm_num; rw [daysBeforeMonth_12]; omega⟩

/-- The day of the month lies within the month. -/
theorem date_in_month (dwy leap : Int) (h0 : 0 ≤ dwy) (h1 : dwy < 365 + leap) :
    1 ≤ dwy - daysBeforeMonth (monthOfDayWithinYear dwy leap) leap + 1 ∧
    dwy - daysBeforeMonth (monthOfDayWithinYear dwy leap) leap + 1 ≤
      daysBeforeMonth (monthOfDayWithinYear dwy leap + 1) leap -
        daysBeforeMonth (monthOfDayWithinYear dwy leap) leap := by
  obtain ⟨m, hm, _, _, h2, h3⟩ := monthOfDayWithinYear_spec dwy leap h0 h1
  rw [hm]
  omega

theorem MakeDay_of_month_range (y m dt : Int) (h0 : 0 ≤ m) (h1 : m ≤ 11) :
    MakeDay y m dt = DayFromYear y + daysBeforeMonth m (InLeapYear y) + dt - 1 := by
  have e1 : m / 12 = 0 := by omega
  have e2 : m % 12 = m := by omega
  simp only [MakeDay, e1, e2, add_zero]

/-- Composing a date from the fields of a time value gives its day back. -/
theorem MakeDay_fields (t : Int) :
    MakeDay (YearFromTime t) (MonthFromTime t) (DateFromTime t) = Day t := by
  rw [MakeDay_of_month_range _ _ _ (MonthFromTime_range t).1 (MonthFromTime_range t).2]
  simp only [DateFromTime, DayWithinYear]
  omega

/-- Setting the day of the month to the next one gives the next day. -/
theorem MakeDay_succ (t : Int) :
    MakeDay (YearFromTime t) (MonthFromTime t) (DateFromTime t + 1) = Day t + 1 := by
  rw [MakeDay_of_month_range _ _ _ (MonthFromTime_range t).1 (MonthFromTime_range t).2]
  simp only [DateFromTime, DayWithinYear]
  omega

theorem DateFromTime_range (t : Int) :
    1 ≤ DateFromTime t ∧
    DateFromTime t ≤ DaysInMonth (YearFromTime t) (MonthFromTime t + 1) := by
  have h := DayWithinYear_range t
  have := date_in_month (DayWithinYear t) (InLeapYear (YearFromTime t)) h.1 h.2
  unfold DateFromTime DaysInMonth MonthFromTime
  simp only [add_sub_cancel_right]
  exact this

/-- Method `setDate(getDate() + 1)` keeps the local time of day and moves to the next
local day. -/
theorem setDate_succ (tz : TimeZone) (t : Int) :
    setDate tz t (getDate tz t + 1) = TimeClip (UTC tz (LocalTime tz t + msPerDay)) := by
  unfold setDate getDate
  simp only
  rw [MakeDay_succ]
  unfold MakeDate Day TimeWithinDay
  congr 2
  have := Int.ediv_add_emod (LocalTime tz t) msPerDay
  have e : (LocalTime tz t / msPerDay + 1) * msPerDay
      = msPerDay * (LocalTime tz t / msPerDay) + msPerDay := by ring
  rw [e]; omega

/-! ## Lemmas on date strings -/

theorem digitChar_toNat (n : Nat) : (digitChar n).toNat = 48 + n % 10 := by
  unfold digitChar
  have h : n % 10 < 10 := Nat.mod_lt _ (by decide)
  generalize n % 10 = k at h
  interval_cases k <;> rfl

theorem digitVal_digitChar (n : Nat) : digitVal (digitChar n) = some (n % 10) := by
  unfold digitVal
  rw [digitChar_toNat]
  have h : n % 10 < 10 := Nat.mod_lt _ (by decide)
  rw [if_pos (by omega)]
  congr 1
  omega

theorem digitChar_ne_plus (n : Nat) : digitChar n ≠ '+' := by
  intro h
  have := congrArg Char.toNat h
  rw [digitChar_toNat] at this
  have e : ('+' : Char).toNat = 43 := rfl
  omega

theorem digitChar_ne_minus (n : Nat) : digitChar n ≠ '-' := by
  intro h
  have := congrArg Char.toNat h
  rw [digitChar_toNat] at this
  have e : ('-' : Char).toNat = 45 := rfl
  omega

theorem digitsVal_pad2 (n : Nat) (h : n < 100) : digitsVal (pad2 n) = some n := by
  simp only [digitsVal, pad2, List.foldl, digitVal_digitChar, Option.bind, Option.map]
  congr 1
  omega

theorem digitsVal_pad4 (n : Nat) (h : n < 10000) : digitsVal (pad4 n) = some n := by
  simp only [digitsVal, pad4, List.foldl, digitVal_digitChar, Option.bind, Option.map]
  congr 1
  omega

theorem digitsVal_pad6 (n : Nat) (h : n < 1000000) : digitsVal (pad6 n) = some n := by
  simp only [digitsVal, pad6, List.foldl, digitVal_digitChar, Option.bind, Option.map]
  congr 1
  omega

theorem parseYear_yearChars (y : Int) (h : -1000000 < y ∧ y < 1000000) (rest : List Char) :
    parseYear (yearChars y ++ rest) = some (y, rest) := by
  unfold yearChars
  by_cases h1 : 0 ≤ y ∧ y ≤ 9999
  · rw [if_pos h1]
    have hd : ∀ c : Char, (pad4 y.toNat ++ rest).head? = some c → c = digitChar (y.toNat / 1000) := by
      intro c hc
      simpa [pad4] using hc.symm
    have hp : (pad4 y.toNat ++ rest).head? ≠ some '+' := fun hc =>
      digitChar_ne_plus _ (hd _ hc).symm
    have hm : (pad4 y.toNat ++ rest).head? ≠ some '-' := fun hc =>
      digitChar_ne_minus _ (hd _ hc).symm
    unfold parseYear
    rw [if_neg hp, if_neg hm]
    have hl : 4 ≤ (pad4 y.toNat ++ rest).length := by simp [pad4]
    have ht : (pad4 y.toNat ++ rest).take 4 = pad4 y.toNat := by simp [pad4]
    have hdr : (pad4 y.toNat ++ rest).drop 4 = rest := by simp [pad4]
    rw [if_pos hl, ht, hdr, digitsVal_pad4 _ (by omega)]
    have e : ((y.toNat : Nat) : Int) = y := by omega
    simp only [Option.map, e]
  · rw [if_neg h1]
    by_cases h2 : y < 0
    · rw [if_pos h2]
      unfold parseYear
      have e1 : ('-' :: pad6 (-y).toNat ++ rest).head? = some '-' := rfl
      have e0 : ('-' :: pad6 (-y).toNat ++ rest).head? ≠ some '+' := by
        rw [e1]; decide
      have hl : 6 ≤ (('-' :: pad6 (-y).toNat ++ rest).drop 1).length := by simp [pad6]
      have ht : (('-' :: pad6 (-y).toNat ++ rest).drop 1).take 6 = pad6 (-y).toNat := by
        simp [pad6]
      have hdr : ('-' :: pad6 (-y).toNat ++ rest).drop 7 = rest := by simp [pad6]
      rw [if_neg e0, if_pos e1, if_pos hl, ht, hdr, digitsVal_pad6 _ (by omega)]
      simp only [Option.bind]
      rw [if_neg (by omega)]
      have e : -(((-y).toNat : Nat) : Int) = y := by omega
      rw [e]
    · rw [if_neg h2]
      unfold parseYear
      have e1 : ('+' :: pad6 y.toNat ++ rest).head? = some '+' := rfl
      have hl : 6 ≤ (('+' :: pad6 y.toNat ++ rest).drop 1).length := by simp [pad6]
      have ht : (('+' :: pad6 y.toNat ++ rest).drop 1).take 6 = pad6 y.toNat := by
        simp [pad6]
      have hdr : ('+' :: pad6 y.toNat ++ rest).drop 7 = rest := by simp [pad6]
      rw [if_pos e1, if_pos hl, ht, hdr, digitsVal_pad6 _ (by omega)]
      have e : ((y.toNat : Nat) : Int) = y := by omega
      simp only [Option.map, e]

theorem parseMonthDay_pad (y : Int) (m d : Nat) (hm : m < 100) (hd : d < 100) :
    parseMonthDay y ('-' :: (pad2 m ++ '-' :: pad2 d)) = dateOfFields y m d := by
  unfold parseMonthDay
  have l6 : ('-' :: (pad2 m ++ '-' :: pad2 d)).length = 6 := rfl
  have c1 : ¬ ('-' :: (pad2 m ++ '-' :: pad2 d)).length = 0 := by rw [l6]; decide
  have c2 : ¬ (('-' :: (pad2 m ++ '-' :: pad2 d)).length = 3 ∧
      ('-' :: (pad2 m ++ '-' :: pad2 d)).head? = some '-') := by
    intro hc
    have := hc.1
    rw [l6] at this
    omega
  have c3 : ('-' :: (pad2 m ++ '-' :: pad2 d)).length = 6 ∧
      ('-' :: (pad2 m ++ '-' :: pad2 d)).head? = some '-' ∧
      (('-' :: (pad2 m ++ '-' :: pad2 d)).drop 3).head? = some '-' := ⟨rfl, rfl, rfl⟩
  rw [if_neg c1, if_neg c2, if_pos c3]
  have t1 : (('-' :: (pad2 m ++ '-' :: pad2 d)).drop 1).take 2 = pad2 m := rfl
  have t2 : ('-' :: (pad2 m ++ '-' :: pad2 d)).drop 4 = pad2 d := rfl
  rw [t1, t2, digitsVal_pad2 _ hm, digitsVal_pad2 _ hd]
  rfl

theorem TimeClip_eq_some (t d : Int) (h : TimeClip t = some d) :
    d = t ∧ -8640000000000000 ≤ d ∧ d ≤ 8640000000000000 := by
  unfold TimeClip at h
  split_ifs at h with c
  have := Option.some.inj h
  omega

theorem TimeClip_of_range (t : Int) (h : -8640000000000000 ≤ t ∧ t ≤ 8640000000000000) :
    TimeClip t = some t := by
  unfold TimeClip
  rw [if_neg (by omega)]

/-- The year of a time value in the range of dates has at most six digits. -/
theorem YearFromTime_bound (t : Int) (h : -8640000000000000 ≤ t ∧ t ≤ 8640000000000000) :
    -1000000 < YearFromTime t ∧ YearFromTime t < 1000000 := by
  have h1 := DayFromYear_YearFromDay_le (Day t)
  have h2 := lt_DayFromYear_YearFromDay_succ (Day t)
  unfold YearFromTime
  generalize YearFromDay (Day t) = y at h1 h2
  unfold DayFromYear Day msPerDay at *
  omega

/-- Parsing the ISO date of a time value gives midnight UTC of its day. -/
theorem parseDate_isoDate (t : Int) (h : -8640000000000000 ≤ t ∧ t ≤ 8640000000000000) :
    parseDate (isoDate t) = some (Day t * msPerDay) := by
  have hy := YearFromTime_bound t h
  have hm := MonthFromTime_range t
  have hd := DateFromTime_range t
  have hdim : DaysInMonth (YearFromTime t) (MonthFromTime t + 1) ≤ 31 := by
    unfold DaysInMonth
    have hl := InLeapYear_range (YearFromTime t)
    generalize InLeapYear (YearFromTime t) = l at hl
    generalize MonthFromTime t = m at hm
    rw [add_sub_cancel_right]
    obtain ⟨m0, m11⟩ := hm
    interval_cases m <;>
      simp only [daysBeforeMonth_0, daysBeforeMonth_1, daysBeforeMonth_2, daysBeforeMonth_3,
        daysBeforeMonth_4, daysBeforeMonth_5, daysBeforeMonth_6, daysBeforeMonth_7,
        daysBeforeMonth_8, daysBeforeMonth_9, daysBeforeMonth_10, daysBeforeMonth_11,
        daysBeforeMonth_12, zero_add, Int.reduceAdd] <;> omega
  unfold parseDate isoDate
  simp only
  rw [parseYear_yearChars _ hy]
  simp only [Option.bind]
  rw [parseMonthDay_pad _ _ _ (by omega) (by omega)]
  unfold dateOfFields
  have e1 : (((MonthFromTime t + 1).toNat : Nat) : Int) = MonthFromTime t + 1 := by omega
  have e2 : (((DateFromTime t).toNat : Nat) : Int) = DateFromTime t := by omega
  rw [if_pos ⟨by omega, by omega, by omega, by rw [e1, e2]; exact hd.2⟩]
  rw [e1, e2, add_sub_cancel_right, MakeDay_fields]
  unfold MakeDate
  rw [add_zero]
  apply TimeClip_of_range
  unfold Day msPerDay
  omega

/-! ## Lemmas on `generateDateRange` -/

theorem dateLoop_none (tz : TimeZone) (e : Int) (fuel : Nat) : dateLoop tz e fuel none = [] := by
  cases fuel <;> rfl

theorem dateLoop_gt (tz : TimeZone) (e d : Int) (fuel : Nat) (h : e < d) :
    dateLoop tz e fuel (some d) = [] := by
  cases fuel
  · rfl
  · simp only [dateLoop]
    rw [if_neg (by omega)]

theorem dateLoop_le (tz : TimeZone) (e d : Int) (fuel : Nat) (h : d ≤ e) :
    dateLoop tz e (fuel + 1) (some d) =
      isoDate d :: dateLoop tz e fuel (TimeClip (UTC tz (LocalTime tz d + msPerDay))) := by
  simp only [dateLoop]
  rw [if_pos h, setDate_succ]

/-- The loop variable of `generateDateRange` moves forward. -/
theorem lt_of_step (tz : TimeZone) (d d1 : Int)
    (h : TimeClip (UTC tz (LocalTime tz d + msPerDay)) = some d1) : d < d1 := by
  have h1 := (TimeClip_eq_some _ _ h).1
  have h2 := tz.forward d
  unfold UTC LocalTime at h1
  omega

/-- The loop of `generateDateRange` does not run out of iterations: with at least
`e - d + 1` of them, the result does not depend on their number. -/
theorem dateLoop_fuel (tz : TimeZone) (e : Int) (fuel1 : Nat) :
    ∀ (fuel2 : Nat) (d : Int), (e - d + 1).toNat ≤ fuel1 → (e - d + 1).toNat ≤ fuel2 →
      dateLoop tz e fuel1 (some d) = dateLoop tz e fuel2 (some d) := by
  induction fuel1 with
  | zero =>
      intro fuel2 d h1 _
      have hd : e < d := by omega
      rw [dateLoop_gt tz e d _ hd, dateLoop_gt tz e d _ hd]
  | succ n ih =>
      intro fuel2 d h1 h2
      by_cases hd : d ≤ e
      · cases fuel2 with
        | zero => omega
        | succ m =>
            rw [dateLoop_le tz e d n hd, dateLoop_le tz e d m hd]
            congr 1
            cases hstep : TimeClip (UTC tz (LocalTime tz d + msPerDay)) with
            | none => rw [dateLoop_none, dateLoop_none]
            | some d1 =>
                have := lt_of_step tz d d1 hstep
                exact ih m d1 (by omega) (by omega)
      · rw [dateLoop_gt tz e d _ (by omega), dateLoop_gt tz e d _ (by omega)]

/-- Every label of the loop is the ISO date of a time value in the range of dates. -/
theorem dateLoop_labels (tz : TimeZone) (e : Int) (fuel : Nat) :
    ∀ (d : Option Int),
      (∀ t, d = some t → -8640000000000000 ≤ t ∧ t ≤ 8640000000000000) →
      ∀ l ∈ dateLoop tz e fuel d,
        ∃ t : Int, (-8640000000000000 ≤ t ∧ t ≤ 8640000000000000) ∧ l = isoDate t := by
  induction fuel with
  | zero => intro d _ l hl; cases d <;> simp [dateLoop] at hl
  | succ n ih =>
      intro d hd l hl
      cases d with
      | none => simp [dateLoop] at hl
      | some t =>
          by_cases hte : t ≤ e
          · rw [dateLoop_le tz e t n hte] at hl
            rcases List.mem_cons.mp hl with h | h
            · exact ⟨t, hd t rfl, h⟩
            · refine ih _ ?_ l h
              intro t1 ht1
              exact (TimeClip_eq_some _ _ ht1).2
          · rw [dateLoop_gt tz e t _ (by omega)] at hl
            simp at hl

theorem dateOfFields_range (y : Int) (m d : Nat) (t : Int) (h : dateOfFields y m d = some t) :
    (-8640000000000000 ≤ t ∧ t ≤ 8640000000000000) ∧ t % msPerDay = 0 := by
  unfold dateOfFields at h
  split_ifs at h
  have := TimeClip_eq_some _ _ h
  refine ⟨this.2, ?_⟩
  rw [this.1]
  unfold MakeDate msPerDay
  omega

/-- A parsed date string is midnight UTC of a day in the range of dates. -/
theorem parseDate_range (s : String) (t : Int) (h : parseDate s = some t) :
    (-8640000000000000 ≤ t ∧ t ≤ 8640000000000000) ∧ t % msPerDay = 0 := by
  unfold parseDate at h
  cases hy : parseYear s.data with
  | none => rw [hy] at h; simp at h
  | some yr =>
      rw [hy] at h
      simp only [Option.bind] at h
      unfold parseMonthDay at h
      split_ifs at h
      · exact dateOfFields_range _ _ _ _ h
      · cases hm : digitsVal (List.drop 1 yr.2) with
        | none => rw [hm] at h; simp at h
        | some m => rw [hm] at h; exact dateOfFields_range _ _ _ _ h
      · cases hm : digitsVal (List.take 2 (List.drop 1 yr.2)) with
        | none => rw [hm] at h; simp at h
        | some m =>
            rw [hm] at h
            cases hd : digitsVal (List.drop 4 yr.2) with
            | none => rw [hd] at h; simp at h
            | some d => rw [hd] at h; exact dateOfFields_range _ _ _ _ h

/-- Every label of `generateDateRange` is the ISO date of a time value in the
range of dates, whatever the host time zone. -/
theorem generateDateRange_labels (tz : TimeZone) (startDate endDate : String) :
    ∀ l ∈ generateDateRange tz startDate endDate,
      ∃ t : Int, (-8640000000000000 ≤ t ∧ t ≤ 8640000000000000) ∧ l = isoDate t := by
  intro l hl
  unfold generateDateRange at hl
  cases hs : parseDate startDate with
  | none => rw [hs] at hl; simp at hl
  | some s =>
      cases he : parseDate endDate with
      | none => rw [hs, he] at hl; simp at hl
      | some e =>
          rw [hs, he] at hl
          simp only at hl
          refine dateLoop_labels tz e _ (some s) ?_ l hl
          intro t ht
          cases ht
          exact (parseDate_range _ _ hs).1

/-- On a host whose offset from UTC is constant the loop yields the days from
`d` to `e`. -/
theorem dateLoop_fixedZone (off e : Int) (he : e ≤ 8640000000000000) (n : Nat) :
    ∀ (fuel : Nat) (d : Int), ((e - d) / msPerDay + 1).toNat = n → n ≤ fuel →
      -8640000000000000 ≤ d →
      dateLoop (fixedZone off) e fuel (some d) =
        (List.range n).map (fun (i : Nat) => isoDate (d + (i : Int) * msPerDay)) := by
  induction n with
  | zero =>
      intro fuel d hn _ _
      rw [dateLoop_gt _ e d _ (by unfold msPerDay at hn; omega)]
      rfl
  | succ k ih =>
      intro fuel d hn hf hd
      have hde : d ≤ e := by unfold msPerDay at hn; omega
      cases fuel with
      | zero => omega
      | succ f =>
          rw [dateLoop_le _ e d f hde, List.range_succ_eq_map, List.map_cons, List.map_map]
          have hstep : UTC (fixedZone off) (LocalTime (fixedZone off) d + msPerDay)
              = d + msPerDay := by
            unfold UTC LocalTime fixedZone
            simp only
            omega
          rw [hstep]
          congr 1
          · simp
          · by_cases hb : d + msPerDay ≤ 8640000000000000
            · rw [TimeClip_of_range _ ⟨by unfold msPerDay; omega, hb⟩,
                ih f (d + msPerDay) (by unfold msPerDay at *; omega) (by omega)
                  (by unfold msPerDay; omega)]
              apply List.map_congr_left
              intro i _
              simp only [Function.comp]
              congr 1
              push_cast
              ring
            · have hk : k = 0 := by unfold msPerDay at *; omega
              subst hk
              unfold TimeClip
              rw [if_pos (Or.inr (by omega)), dateLoop_none]
              rfl

/-- On a host whose offset from UTC is constant, `generateDateRange` yields the
ISO dates of all the days from the start date to the end date, in ascending
order, and nothing when the start date is after the end date. -/
theorem generateDateRange_fixedZone (off : Int) (startDate endDate : String) (s e : Int)
    (hs : parseDate startDate = some s) (he : parseDate endDate = some e) :
    generateDateRange (fixedZone off) startDate endDate =
      (List.range (Day e - Day s + 1).toNat).map
        (fun (i : Nat) => isoDate ((Day s + (i : Int)) * msPerDay)) := by
  have rs := parseDate_range _ _ hs
  have re := parseDate_range _ _ he
  unfold generateDateRange
  rw [hs, he]
  simp only
  have hn : ((e - s) / msPerDay + 1).toNat = (Day e - Day s + 1).toNat := by
    unfold Day msPerDay at *
    omega
  rw [dateLoop_fixedZone off e re.1.2 _ _ s hn (by unfold Day msPerDay at *; omega) rs.1.1]
  apply List.map_congr_left
  intro i _
  congr 1
  unfold Day msPerDay at *
  omega

/-! ## Lemmas on the mock series -/

theorem mapFrom_length {α β : Type} (f : α → Nat → β) (l : List α) :
    ∀ k, (mapFrom f k l).length = l.length := by
  induction l with
  | nil => intro k; rfl
  | cons a as ih => intro k; simp only [mapFrom, List.length_cons, ih]

theorem mapFrom_getElem? {α β : Type} (f : α → Nat → β) (l : List α) :
    ∀ k i, (mapFrom f k l)[i]? = (l[i]?).map (fun a => f a (k + i)) := by
  induction l with
  | nil => intro k i; rfl
  | cons a as ih =>
      intro k i
      cases i with
      | zero => simp [mapFrom]
      | succ j =>
          simp only [mapFrom, List.getElem?_cons_succ, ih]
          congr 1
          funext x
          congr 1
          omega

theorem mem_mapFrom {α β : Type} (f : α → Nat → β) (l : List α) :
    ∀ k, ∀ b ∈ mapFrom f k l, ∃ a ∈ l, ∃ i, b = f a i := by
  induction l with
  | nil => intro k b hb; simp [mapFrom] at hb
  | cons a as ih =>
      intro k b hb
      simp only [mapFrom, List.mem_cons] at hb
      rcases hb with h | h
      · exact ⟨a, List.mem_cons_self _ _, k, h⟩
      · obtain ⟨a1, h1, i, hi⟩ := ih _ b h
        exact ⟨a1, List.mem_cons_of_mem _ h1, i, hi⟩

theorem utf16Char_length_pos (c : Char) : 1 ≤ (utf16Char c).length := by
  unfold utf16Char
  split_ifs <;> simp

theorem utf16_length_ge (cs : List Char) : cs.length ≤ (cs.flatMap utf16Char).length := by
  induction cs with
  | nil => simp
  | cons c cs ih =>
      have := utf16Char_length_pos c
      simp only [List.flatMap_cons, List.length_append, List.length_cons]
      omega

theorem yearChars_length (y : Int) : 4 ≤ (yearChars y).length := by
  unfold yearChars
  split_ifs <;> simp [pad4, pad6]

/-- Every ISO date has a code unit at position 8. -/
theorem charCodeAt_isoDate (t : Int) : ∃ code, charCodeAt (isoDate t) 8 = some code := by
  have h1 := utf16_length_ge (isoDate t).data
  have h2 : 10 ≤ (isoDate t).data.length := by
    have := yearChars_length (YearFromTime t)
    unfold isoDate
    simp only [List.length_append, List.length_cons, pad2, List.length_nil]
    omega
  have h3 : 8 < (utf16 (isoDate t)).length := by unfold utf16; omega
  exact ⟨(utf16 (isoDate t))[8], by unfold charCodeAt; exact List.getElem?_eq_getElem h3⟩

theorem fl_bounds (h : MathHost) (x : ℚ) (a b : Int)
    (ha : -9007199254740992 ≤ a ∧ a ≤ 9007199254740992)
    (hb : -9007199254740992 ≤ b ∧ b ≤ 9007199254740992)
    (hx : (a : ℚ) ≤ x ∧ x ≤ (b : ℚ)) : (a : ℚ) ≤ h.fl x ∧ h.fl x ≤ (b : ℚ) := by
  have h1 := h.fl_mono _ _ hx.1
  have h2 := h.fl_mono _ _ hx.2
  rw [h.fl_int a ha.1 ha.2] at h1
  rw [h.fl_int b hb.1 hb.2] at h2
  exact ⟨h1, h2⟩

theorem baseRevenue_range (w : Int) : 1200 ≤ baseRevenue w ∧ baseRevenue w ≤ 1800 := by
  unfold baseRevenue
  split_ifs <;> norm_num

theorem baseOrders_range (w : Int) : 1 ≤ baseOrders w ∧ baseOrders w ≤ 5 := by
  unfold baseOrders
  split_ifs <;> omega

/-- A mock revenue is a number, and at least 750: the base is at least 1200
and the variation at least -450. -/
theorem revenueValue_ge (tz : TimeZone) (h : MathHost) (date : String) (index : Nat)
    (t : Int) (code : Nat) (ht : parseDate date = some t) (hc : charCodeAt date 8 = some code) :
    ∃ q : ℚ, revenueValue tz h date index = some q ∧ 750 ≤ q := by
  unfold revenueValue
  rw [ht, hc]
  refine ⟨_, rfl, ?_⟩
  have hs := h.sin_range (h.fl ((index : ℚ) * h.fl (8 / 10)))
  have hco := h.cos_range (h.fl ((getDate tz t : ℚ) * h.fl (3 / 10)))
  generalize h.sin (h.fl ((index : ℚ) * h.fl (8 / 10))) = sv at hs
  generalize h.cos (h.fl ((getDate tz t : ℚ) * h.fl (3 / 10))) = cv at hco
  have b1 := fl_bounds h (sv * 300) (-300) 300 (by decide) (by decide)
    (by constructor <;> push_cast <;> linarith [hs.1, hs.2])
  have b2 := fl_bounds h (cv * 150) (-150) 150 (by decide) (by decide)
    (by constructor <;> push_cast <;> linarith [hco.1, hco.2])
  have b3 := fl_bounds h (h.fl (sv * 300) + h.fl (cv * 150)) (-450) 450 (by decide) (by decide)
    (by constructor <;> push_cast <;> push_cast at b1 b2 <;> linarith [b1.1, b1.2, b2.1, b2.2])
  have hcode : (0 : ℚ) ≤ ((code % 200 : Nat) : ℚ) ∧ ((code % 200 : Nat) : ℚ) ≤ 199 := by
    have : code % 200 < 200 := Nat.mod_lt _ (by decide)
    constructor
    · exact_mod_cast Nat.zero_le _
    · exact_mod_cast (by omega : code % 200 ≤ 199)
  have b4 := fl_bounds h (h.fl (h.fl (sv * 300) + h.fl (cv * 150)) + ((code % 200 : Nat) : ℚ))
    (-450) 649 (by decide) (by decide)
    (by constructor <;> push_cast <;> push_cast at b3 <;> linarith [b3.1, b3.2, hcode.1, hcode.2])
  have hb := baseRevenue_range (getDay tz t)
  generalize h.fl (h.fl (h.fl (sv * 300) + h.fl (cv * 150)) + ((code % 200 : Nat) : ℚ)) = v at b4
  have b5 := fl_bounds h (baseRevenue (getDay tz t) + v) 750 2449 (by decide) (by decide)
    (by constructor <;> push_cast <;> push_cast at b4 <;> linarith [b4.1, b4.2, hb.1, hb.2])
  generalize h.fl (baseRevenue (getDay tz t) + v) = w at b5
  have b6 := fl_bounds h (w * 100) 75000 244900 (by decide) (by decide)
    (by constructor <;> push_cast <;> push_cast at b5 <;> linarith [b5.1, b5.2])
  generalize h.fl (w * 100) = z at b6
  have b7 : (75000 : Int) ≤ mathRound z := by
    unfold mathRound
    rw [Int.le_floor]
    push_cast at b6 ⊢
    linarith [b6.1]
  have b8 : (mathRound z : ℚ) ≤ 9007199254740992 * 100 := by
    have : mathRound z ≤ 244901 := by
      unfold mathRound
      have := Int.floor_le (z + 1 / 2)
      have h9 : ((⌊z + 1 / 2⌋ : Int) : ℚ) ≤ 244901 := by
        push_cast at b6
        linarith [b6.2]
      exact_mod_cast h9
    have : (mathRound z : ℚ) ≤ 244901 := by exact_mod_cast this
    linarith
  have b9 := (fl_bounds h ((mathRound z : ℚ) / 100) 750 9007199254740992 (by decide) (by decide)
    (by
      have : (75000 : ℚ) ≤ (mathRound z : ℚ) := by exact_mod_cast b7
      constructor
      · push_cast; linarith
      · push_cast; linarith)).1
  push_cast at b9
  exact b9

/-- A mock number of orders is a natural number. -/
theorem ordersValue_nat (tz : TimeZone) (h : MathHost) (date : String) (index : Nat)
    (t : Int) (code : Nat) (ht : parseDate date = some t) (hc : charCodeAt date 8 = some code) :
    ∃ n : Nat, ordersValue tz h date index = some (n : ℚ) := by
  unfold ordersValue
  rw [ht, hc]
  simp only
  have hs := h.sin_range (h.fl ((index : ℚ) * h.fl (12 / 10)))
  have hco := h.cos_range (h.fl ((getDate tz t : ℚ) * h.fl (4 / 10)))
  generalize h.sin (h.fl ((index : ℚ) * h.fl (12 / 10))) = sv at hs
  generalize h.cos (h.fl ((getDate tz t : ℚ) * h.fl (4 / 10))) = cv at hco
  have b1 := fl_bounds h (sv * 3) (-3) 3 (by decide) (by decide)
    (by constructor <;> push_cast <;> linarith [hs.1, hs.2])
  have b2 := fl_bounds h (cv * 2) (-2) 2 (by decide) (by decide)
    (by constructor <;> push_cast <;> linarith [hco.1, hco.2])
  have b3 := fl_bounds h (h.fl (sv * 3) + h.fl (cv * 2)) (-5) 5 (by decide) (by decide)
    (by constructor <;> push_cast <;> push_cast at b1 b2 <;> linarith [b1.1, b1.2, b2.1, b2.2])
  have hcode : (0 : ℚ) ≤ ((code % 4 : Nat) : ℚ) ∧ ((code % 4 : Nat) : ℚ) ≤ 3 := by
    have : code % 4 < 4 := Nat.mod_lt _ (by decide)
    constructor
    · exact_mod_cast Nat.zero_le _
    · exact_mod_cast (by omega : code % 4 ≤ 3)
  have b4 := fl_bounds h (h.fl (h.fl (sv * 3) + h.fl (cv * 2)) + ((code % 4 : Nat) : ℚ))
    (-5) 8 (by decide) (by decide)
    (by constructor <;> push_cast <;> push_cast at b3 <;> linarith [b3.1, b3.2, hcode.1, hcode.2])
  generalize h.fl (h.fl (h.fl (sv * 3) + h.fl (cv * 2)) + ((code % 4 : Nat) : ℚ)) = v at b4
  have f1 : (-5 : Int) ≤ ⌊v⌋ := by rw [Int.le_floor]; exact b4.1
  have f2 : ⌊v⌋ ≤ (8 : Int) := by
    have : ((⌊v⌋ : Int) : ℚ) ≤ ((8 : Int) : ℚ) := le_trans (Int.floor_le v) b4.2
    exact_mod_cast this
  have hb := baseOrders_range (getDay tz t)
  have hfl : h.fl ((baseOrders (getDay tz t) : ℚ) + ((⌊v⌋ : Int) : ℚ))
      = ((baseOrders (getDay tz t) + ⌊v⌋ : Int) : ℚ) := by
    rw [← h.fl_int (baseOrders (getDay tz t) + ⌊v⌋) (by omega) (by omega)]
    push_cast
    rfl
  rw [hfl]
  refine ⟨(max 0 (baseOrders (getDay tz t) + ⌊v⌋)).toNat, ?_⟩
  congr 1
  have hm : ((max 0 (baseOrders (getDay tz t) + ⌊v⌋)).toNat : Int)
      = max 0 (baseOrders (getDay tz t) + ⌊v⌋) := Int.toNat_of_nonneg (le_max_left _ _)
  have : (((max 0 (baseOrders (getDay tz t) + ⌊v⌋)).toNat : Nat) : ℚ)
      = ((max 0 (baseOrders (getDay tz t) + ⌊v⌋) : Int) : ℚ) := by
    rw [← hm]; push_cast; rfl
  rw [this]
  push_cast
  rfl

/-! ## The claims -/

/-- C1: on a host in the time zone of New York, `generateDateRange` from
2025-03-08 to 2025-03-12 yields 2025-03-09 twice and does not yield 2025-03-12:
the labels are not the dates from the start date to the end date, each once. -/
theorem generateDateRange_newYork_spring :
    generateDateRange newYork2025 "2025-03-08" "2025-03-12"
        = ["2025-03-08", "2025-03-09", "2025-03-09", "2025-03-10", "2025-03-11"] ∧
      generateDateRange newYork2025 "2025-03-08" "2025-03-12"
        ≠ ["2025-03-08", "2025-03-09", "2025-03-10", "2025-03-11", "2025-03-12"] := by
  decide

/-- C2: the series of `generateRevenueData` and of `generateOrdersData` have as
many values as labels, and the value at index `i` is the one computed for the
label at index `i` and the index `i`, for every start and end date. -/
theorem series_data_of_labels (tz : TimeZone) (h : MathHost) (startDate endDate : String) :
    ((generateRevenueData tz h startDate endDate).labels.length
        = (generateRevenueData tz h startDate endDate).data.length ∧
      ∀ (i : Nat) (label : String),
        (generateRevenueData tz h startDate endDate).labels[i]? = some label →
        (generateRevenueData tz h startDate endDate).data[i]?
          = some (revenueValue tz h label i)) ∧
    ((generateOrdersData tz h startDate endDate).labels.length
        = (generateOrdersData tz h startDate endDate).data.length ∧
      ∀ (i : Nat) (label : String),
        (generateOrdersData tz h startDate endDate).labels[i]? = some label →
        (generateOrdersData tz h startDate endDate).data[i]?
          = some (ordersValue tz h label i)) := by
  refine ⟨⟨?_, ?_⟩, ⟨?_, ?_⟩⟩
  · simp only [generateRevenueData, arrayMap, mapFrom_length]
  · intro i label hl
    simp only [generateRevenueData, arrayMap, mapFrom_getElem?] at hl ⊢
    rw [hl]
    simp
  · simp only [generateOrdersData, arrayMap, mapFrom_length]
  · intro i label hl
    simp only [generateOrdersData, arrayMap, mapFrom_getElem?] at hl ⊢
    rw [hl]
    simp

/-- C3: every value of `generateRevenueData` is a number that is at least 0, and
every value of `generateOrdersData` is a natural number, for every date range,
every host time zone and every host arithmetic. -/
theorem mock_values_nonneg (tz : TimeZone) (h : MathHost) (startDate endDate : String) :
    (∀ v ∈ (generateRevenueData tz h startDate endDate).data, ∃ q : ℚ, v = some q ∧ 0 ≤ q) ∧
    (∀ v ∈ (generateOrdersData tz h startDate endDate).data, ∃ n : Nat, v = some (n : ℚ)) := by
  constructor
  · intro v hv
    obtain ⟨label, hl, i, hi⟩ := mem_mapFrom _ _ _ v hv
    obtain ⟨t, ht, rfl⟩ := generateDateRange_labels tz startDate endDate label hl
    obtain ⟨code, hc⟩ := charCodeAt_isoDate t
    obtain ⟨q, hq, hq0⟩ := revenueValue_ge tz h (isoDate t) i _ code (parseDate_isoDate t ht) hc
    exact ⟨q, by rw [hi, hq], by linarith⟩
  · intro v hv
    obtain ⟨label, hl, i, hi⟩ := mem_mapFrom _ _ _ v hv
    obtain ⟨t, ht, rfl⟩ := generateDateRange_labels tz startDate endDate label hl
    obtain ⟨code, hc⟩ := charCodeAt_isoDate t
    obtain ⟨n, hn⟩ := ordersValue_nat tz h (isoDate t) i _ code (parseDate_isoDate t ht) hc
    exact ⟨n, by rw [hi, hn]⟩

/-- C4: when the sync call succeeds with the message "Sync completed" and the
call of `/stats` that follows fails at network level, the final sync message
is the network-error message, not the success message. -/
theorem handleSync_stats_failure_message (b : Builtins) :
    (demoDashboard.run (handleSync b (some "abc123") demoDashboard
        (.json true (.obj [("message", .str "Sync completed")])) .networkError)).syncMessage
      = failureMark ++ " Network error during sync" ∧
    (demoDashboard.run (handleSync b (some "abc123") demoDashboard
        (.json true (.obj [("message", .str "Sync completed")])) .networkError)).syncMessage
      ≠ successMark ++ " " ++ "Sync completed" := by
  constructor
  · rfl
  · have e : (demoDashboard.run (handleSync b (some "abc123") demoDashboard
        (.json true (.obj [("message", .str "Sync completed")])) .networkError)).syncMessage
        = failureMark ++ " Network error during sync" := rfl
    rw [e]
    decide

/-- C5, counterexample: a password of 3 characters whose confirmation differs
sets the error message "Passwords do not match". -/
theorem signup_short_mismatch :
    jsLength mismatchSignup.password < 6 ∧
    (mismatchSignup.run (Signup.handleSubmit mismatchSignup .networkError)).error
      = .str "Passwords do not match" ∧
    (mismatchSignup.run (Signup.handleSubmit mismatchSignup .networkError)).error
      ≠ .str "Password must be at least 6 characters long" := by
  refine ⟨by decide, rfl, ?_⟩
  have e : (mismatchSignup.run (Signup.handleSubmit mismatchSignup .networkError)).error
      = .str "Passwords do not match" := rfl
  rw [e]
  intro h
  injection h with h
  exact absurd h (by decide)

/-- C5, amended: a submission whose password has fewer than 6 UTF-16 code units
issues no network call and ends with `loading` and `success` false; the error
message is "Password must be at least 6 characters long" when the
confirmation equals the password and "Passwords do not match" otherwise. -/
theorem signup_short_password (st : SignupState) (resp : Response)
    (hlen : jsLength st.password < 6) :
    (∀ a ∈ Signup.handleSubmit st resp, a.isFetch = false) ∧
    (st.run (Signup.handleSubmit st resp)).loading = false ∧
    (st.run (Signup.handleSubmit st resp)).success = false ∧
    (st.password = st.confirmPassword →
      (st.run (Signup.handleSubmit st resp)).error
        = .str "Password must be at least 6 characters long") ∧
    (st.password ≠ st.confirmPassword →
      (st.run (Signup.handleSubmit st resp)).error = .str "Passwords do not match") := by
  by_cases hp : st.password = st.confirmPassword
  · have e : Signup.handleSubmit st resp =
        [.setLoading true, .setError (.str ""), .setSuccess false,
         .setError (.str "Password must be at least 6 characters long"), .setLoading false] := by
      unfold Signup.handleSubmit
      rw [if_neg (by simpa using hp), if_pos hlen]
      rfl
    rw [e]
    refine ⟨?_, rfl, rfl, fun _ => rfl, fun hne => absurd hp hne⟩
    intro a ha
    simp only [List.mem_cons, List.mem_singleton, List.not_mem_nil, or_false] at ha
    rcases ha with rfl | rfl | rfl | rfl | rfl <;> rfl
  · have e : Signup.handleSubmit st resp =
        [.setLoading true, .setError (.str ""), .setSuccess false,
         .setError (.str "Passwords do not match"), .setLoading false] := by
      unfold Signup.handleSubmit
      rw [if_pos hp]
      rfl
    rw [e]
    refine ⟨?_, rfl, rfl, fun he => absurd he hp, fun _ => rfl⟩
    intro a ha
    simp only [List.mem_cons, List.mem_singleton, List.not_mem_nil, or_false] at ha
    rcases ha with rfl | rfl | rfl | rfl | rfl <;> rfl

/-- C5, amended, at a password of 5 characters. -/
theorem signup_short_password_witness :
    jsLength shortSignup.password < 6 ∧
    (shortSignup.run (Signup.handleSubmit shortSignup .networkError)).error
      = .str "Password must be at least 6 characters long" :=
  ⟨by decide, (signup_short_password shortSignup .networkError (by decide)).2.2.2.1 rfl⟩

theorem run_append (st : DashboardState) (xs ys : List Action) :
    st.run (xs ++ ys) = (st.run xs).run ys := by
  unfold DashboardState.run
  rw [List.foldl_append]

/-- The actions of `handleSync` when a store is selected and a token present. -/
theorem handleSync_guarded (b : Builtins) (token : Option String) (st : DashboardState)
    (sync stats : Response) (hs : truthy st.selectedStore = true)
    (ht : tokenPresent token = true) :
    ∃ middle, handleSync b token st sync stats =
      [.setSyncing true, .setSyncMessage "", .fetch (syncRequest b token st.selectedStore)] ++
        middle ++ [.setSyncing false] := by
  unfold handleSync
  rw [hs, ht]
  exact ⟨_, rfl⟩

/-- C6: when the sync call of `handleSync` fails (no response, a body that is
not JSON, or an error response), no timer for the refresh is started, the
statistics are not set, the only network call is the sync call, and the final
state differs from the initial one in `syncMessage` only, with `syncing`
false: `refreshTrigger` and `stats` are unchanged. -/
theorem handleSync_failure_no_refresh (b : Builtins) (token : Option String)
    (st : DashboardState) (sync stats : Response)
    (hs : truthy st.selectedStore = true) (ht : tokenPresent token = true)
    (hf : sync = .networkError ∨ (∃ ok, sync = .undecodable ok) ∨
      (∃ body, sync = .json false body)) :
    (∀ a ∈ handleSync b token st sync stats,
      (∀ d, a ≠ .setTimeoutRefresh d) ∧ (∀ v, a ≠ .setStats v) ∧
      (∀ r, a = .fetch r → r = syncRequest b token st.selectedStore)) ∧
    (∃ msg, st.run (handleSync b token st sync stats)
      = { st with syncing := false, syncMessage := msg }) ∧
    (st.run (handleSync b token st sync stats)).refreshTrigger = st.refreshTrigger ∧
    (st.run (handleSync b token st sync stats)).stats = st.stats := by
  have key : ∃ msg, handleSync b token st sync stats =
      [.setSyncing true, .setSyncMessage "", .fetch (syncRequest b token st.selectedStore)] ++
        [.consoleError, .setSyncMessage msg] ++ [.setSyncing false] ∨
      handleSync b token st sync stats =
      [.setSyncing true, .setSyncMessage "", .fetch (syncRequest b token st.selectedStore)] ++
        [.setSyncMessage msg] ++ [.setSyncing false] := by
    unfold handleSync
    rw [hs, ht]
    rcases hf with rfl | ⟨ok, rfl⟩ | ⟨body, rfl⟩
    · exact ⟨_, Or.inl rfl⟩
    · exact ⟨_, Or.inl rfl⟩
    · cases hg : getProp body "error" with
      | none =>
          exact ⟨failureMark ++ " Network error during sync", Or.inl (by simp [hg, syncCatch])⟩
      | some e =>
          exact ⟨failureMark ++ " " ++ toStr b (jsOr e (.str "Sync failed")),
            Or.inr (by simp [hg])⟩
  obtain ⟨msg, hk | hk⟩ := key
  · rw [hk]
    refine ⟨?_, ⟨msg, rfl⟩, rfl, rfl⟩
    intro a ha
    simp only [List.cons_append, List.nil_append, List.mem_cons, List.mem_singleton,
      List.not_mem_nil, or_false] at ha
    rcases ha with rfl | rfl | rfl | rfl | rfl | rfl
    all_goals refine ⟨fun d h => ?_, fun v h => ?_, fun r h => ?_⟩
    all_goals cases h
    all_goals rfl
  · rw [hk]
    refine ⟨?_, ⟨msg, rfl⟩, rfl, rfl⟩
    intro a ha
    simp only [List.cons_append, List.nil_append, List.mem_cons, List.mem_singleton,
      List.not_mem_nil, or_false] at ha
    rcases ha with rfl | rfl | rfl | rfl | rfl
    all_goals refine ⟨fun d h => ?_, fun v h => ?_, fun r h => ?_⟩
    all_goals cases h
    all_goals rfl

/-- C6, at an error response for the demo dashboard. -/
theorem handleSync_failure_no_refresh_witness :
    (demoDashboard.run (handleSync plainBuiltins (some "abc123") demoDashboard
        (.json false (.obj [("error", .str "Shop not reachable")])) .networkError)).refreshTrigger
      = demoDashboard.refreshTrigger ∧
    (demoDashboard.run (handleSync plainBuiltins (some "abc123") demoDashboard
        (.json false (.obj [("error", .str "Shop not reachable")])) .networkError)).stats
      = demoDashboard.stats :=
  (handleSync_failure_no_refresh plainBuiltins (some "abc123") demoDashboard
    (.json false (.obj [("error", .str "Shop not reachable")])) .networkError rfl rfl
    (Or.inr (Or.inr ⟨_, rfl⟩))).2.2

/-- C7: when the call of the summary, of the revenue series or of the orders
series gets no response or a body that is not JSON, the statistics are
`mockStats`, and the chart data are those of `generateRevenueData`, of
`generateOrdersData`, for the current date ranges. -/
theorem fetch_failure_falls_back (tz : TimeZone) (h : MathHost) (b : Builtins)
    (token : Option String) (st : DashboardState) (resp : Response)
    (hs : truthy st.selectedStore = true) (ht : tokenPresent token = true)
    (hf : resp = .networkError ∨ ∃ ok, resp = .undecodable ok) :
    (st.run (statsEffect b token st resp)).stats = mockStats ∧
    (st.run (fetchRevenueData tz h b token st resp)).revenueChartData
      = mockChart "Daily Revenue ($)"
          (generateRevenueData tz h st.dateRange.fromDate st.dateRange.toDate) ∧
    (st.run (fetchOrdersData tz h b token st resp)).ordersChartData
      = mockChart "Daily Orders"
          (generateOrdersData tz h st.ordersDateRange.fromDate st.ordersDateRange.toDate) := by
  unfold statsEffect fetchRevenueData fetchOrdersData
  rw [hs, ht]
  rcases hf with rfl | ⟨ok, rfl⟩ <;> exact ⟨rfl, rfl, rfl⟩

/-- C7, at a network failure for the demo dashboard. -/
theorem fetch_failure_falls_back_witness :
    (demoDashboard.run (statsEffect plainBuiltins (some "abc123") demoDashboard
      .networkError)).stats = mockStats :=
  (fetch_failure_falls_back (fixedZone 0) exactHost plainBuiltins (some "abc123") demoDashboard
    .networkError rfl rfl (Or.inl rfl)).1

/-- C8: an error response with the body `{"error": "Unauthorized"}` to the call
of the summary leaves that body in `stats`, which is not `mockStats`; the same
response to the call of the revenue series leaves the labels of the chart
`undefined`, not the labels of the mock series. -/
theorem http_error_not_masked (tz : TimeZone) (h : MathHost) (b : Builtins) :
    (demoDashboard.run (statsEffect b (some "abc123") demoDashboard
        (.json false (.obj [("error", .str "Unauthorized")])))).stats
      = .obj [("error", .str "Unauthorized")] ∧
    (demoDashboard.run (statsEffect b (some "abc123") demoDashboard
        (.json false (.obj [("error", .str "Unauthorized")])))).stats ≠ mockStats ∧
    (demoDashboard.run (fetchRevenueData tz h b (some "abc123") demoDashboard
        (.json false (.obj [("error", .str "Unauthorized")])))).revenueChartData.labels
      = .undefined := by
  refine ⟨rfl, ?_, rfl⟩
  have e : (demoDashboard.run (statsEffect b (some "abc123") demoDashboard
        (.json false (.obj [("error", .str "Unauthorized")])))).stats
      = .obj [("error", .str "Unauthorized")] := rfl
  rw [e]
  unfold mockStats
  intro hc
  injection hc with hc
  injection hc with h1 h2
  injection h1 with h3 h4
  exact absurd h3 (by decide)

/-- C9: after `handleLogout` the persisted token is absent and the token in memory
is `null`; a fresh load from that storage has no token and renders the login
screen, as does the application right after the logout. -/
theorem handleLogout_clears_session (st : AppState) :
    (handleLogout st).storage = none ∧ (handleLogout st).token = none ∧
    (AppState.initial (handleLogout st).storage).token = none ∧
    appScreen (AppState.initial (handleLogout st).storage) = .login ∧
    appScreen (handleLogout st) = .login :=
  ⟨rfl, rfl, rfl, rfl, rfl⟩

/-- C10, counterexample: after a login, the fetch of a list of one store and
a logout, the store list of `App` still holds that store. -/
theorem handleLogout_keeps_stores_example :
    (handleLogout loggedInApp).stores = .arr [demoStore] ∧
    (handleLogout loggedInApp).stores ≠ .arr [] := by
  refine ⟨rfl, ?_⟩
  have e : (handleLogout loggedInApp).stores = .arr [demoStore] := rfl
  rw [e]
  intro h
  injection h with h
  exact absurd h (by simp)

/-- C10, amended: `handleLogout` resets the token in memory and the persisted
token and returns to the login screen, where the dashboard is not rendered;
it leaves the store list of `App` as it was. -/
theorem handleLogout_frame (st : AppState) :
    handleLogout st = { st with token := none, view := "login", storage := none } ∧
    (handleLogout st).stores = st.stores ∧
    appScreen (handleLogout st) ≠ .dashboard := by
  refine ⟨rfl, rfl, ?_⟩
  have e : appScreen (handleLogout st) = .login := rfl
  rw [e]
  decide

/-! ### The inline sync message -/

theorem includes_cons (c : Char) (cs : List Char) (sub : String) :
    includes (String.mk (c :: cs)) sub
      = (startsWith sub.data (c :: cs) || includes (String.mk cs) sub) := by
  unfold includes
  simp only [List.tails, List.any_cons]

/-- The success marker occurs in a failure message only within the text that
follows the failure marker. -/
theorem includes_failure_message (e : String) :
    includes (failureMark ++ " " ++ e) successMark = includes e successMark := by
  have h : failureMark ++ " " ++ e = String.mk ('â' :: 'Œ' :: ' ' :: e.data) := by
    apply String.ext
    simp [failureMark, String.data_append]
  rw [h, includes_cons, includes_cons, includes_cons]
  have h1 : startsWith successMark.data ('â' :: 'Œ' :: ' ' :: e.data) = false := by
    simp [successMark, startsWith]
  have h2 : startsWith successMark.data ('Œ' :: ' ' :: e.data) = false := by
    simp [successMark, startsWith]
  have h3 : startsWith successMark.data (' ' :: e.data) = false := by
    simp [successMark, startsWith]
  rw [h1, h2, h3]
  simp

theorem includes_success_message (m : String) :
    includes (successMark ++ " " ++ m) successMark = true := by
  have h : successMark ++ " " ++ m = String.mk ('â' :: 'œ' :: '…' :: ' ' :: m.data) := by
    apply String.ext
    simp [successMark, String.data_append]
  rw [h, includes_cons]
  simp [successMark, startsWith]

theorem append_ne_empty (mark rest : String) (h : mark ≠ "") : mark ++ rest ≠ "" := by
  intro hc
  have := congrArg String.length hc
  rw [String.length_append] at this
  have h0 : mark.length ≠ 0 := by
    intro hz
    apply h
    apply String.ext
    exact List.length_eq_zero.mp hz
  simp at this
  omega

/-- C11, counterexample: after the fetch of an empty store list the dashboard
renders the loading view, as it does before the list is loaded and after a
failed fetch. -/
theorem empty_store_list_keeps_loading :
    dashboardView (some "abc123") (DashboardState.initial.run
        (storesEffect plainBuiltins (some "abc123") (.json true (.arr []))))
      = some .loadingStores ∧
    dashboardView (some "abc123") DashboardState.initial = some .loadingStores ∧
    dashboardView (some "abc123") (DashboardState.initial.run
        (storesEffect plainBuiltins (some "abc123") .networkError))
      = some .loadingStores := by
  decide

/-- C11, amended: when the fetch of the store list succeeds with an empty list,
the dashboard renders the view "Loading your Shopify stores...", the same
view as before the list is loaded, and selects no store. -/
theorem empty_store_list_view (b : Builtins) (token : Option String) (st : DashboardState)
    (ok : Bool) (ht : tokenPresent token = true) :
    storesEffect b token (.json ok (.arr []))
      = [.fetch (storesRequest token), .setStores (.arr [])] ∧
    dashboardView token (st.run (storesEffect b token (.json ok (.arr []))))
      = some .loadingStores ∧
    dashboardView token DashboardState.initial = some .loadingStores ∧
    (st.run (storesEffect b token (.json ok (.arr [])))).selectedStore = st.selectedStore := by
  have e : storesEffect b token (.json ok (.arr []))
      = [.fetch (storesRequest token), .setStores (.arr [])] := by
    unfold storesEffect
    rw [ht]
    simp [getProp, gtZero, toNumber]
  rw [e]
  refine ⟨rfl, ?_, ?_, rfl⟩
  · unfold dashboardView
    rw [ht]
    rfl
  · unfold dashboardView
    rw [ht]
    rfl

/-- C11, amended, at the token "abc123". -/
theorem empty_store_list_view_witness :
    dashboardView (some "abc123") (demoDashboard.run
        (storesEffect plainBuiltins (some "abc123") (.json true (.arr []))))
      = some .loadingStores :=
  (empty_store_list_view plainBuiltins (some "abc123") demoDashboard true rfl).2.1

/-- C12, counterexample: an error response whose text contains the success
marker is styled as a success. -/
theorem failure_with_success_mark :
    syncMessageClass (demoDashboard.run (handleSync plainBuiltins (some "abc123") demoDashboard
        (.json false (.obj [("error", .str "âœ… partly done")])) .networkError))
      = some "sync-success" := by
  decide

/-- C12, amended: the inline message is styled as a success exactly when it
contains the success marker.  After a successful sync and a decoded
statistics response it is styled as a success; after a failure at network
level, or an error response without error text, it is styled as an error;
after an error response with the error text `e` it is styled as an error
exactly when `e` does not contain the success marker. -/
theorem sync_message_class (b : Builtins) (token : Option String) (st : DashboardState)
    (hs : truthy st.selectedStore = true) (ht : tokenPresent token = true) :
    (∀ (data m statsData : JsVal) (ok : Bool), getProp data "message" = some m →
      syncMessageClass (st.run (handleSync b token st (.json true data) (.json ok statsData)))
        = some "sync-success") ∧
    (∀ stats, syncMessageClass (st.run (handleSync b token st .networkError stats))
        = some "sync-error") ∧
    (∀ data stats, getProp data "error" = some .undefined →
      syncMessageClass (st.run (handleSync b token st (.json false data) stats))
        = some "sync-error") ∧
    (∀ data stats (e : String), getProp data "error" = some (.str e) → e ≠ "" →
      (syncMessageClass (st.run (handleSync b token st (.json false data) stats))
        = some "sync-error" ↔ includes e successMark = false)) := by
  have hmark : failureMark ≠ "" := by decide
  have smark : successMark ≠ "" := by decide
  refine ⟨?_, ?_, ?_, ?_⟩
  · intro data m statsData ok hm
    have e : (st.run (handleSync b token st (.json true data) (.json ok statsData))).syncMessage
        = successMark ++ " " ++ toStr b m := by
      unfold handleSync
      rw [hs, ht]
      simp [hm, DashboardState.run, DashboardState.step]
    unfold syncMessageClass
    rw [e, if_neg (by rw [String.append_assoc]; exact append_ne_empty _ _ smark),
      if_pos (includes_success_message _)]
  · intro stats
    have e : (st.run (handleSync b token st .networkError stats)).syncMessage
        = failureMark ++ " " ++ "Network error during sync" := by
      unfold handleSync
      rw [hs, ht]
      rfl
    unfold syncMessageClass
    rw [e, if_neg (by rw [String.append_assoc]; exact append_ne_empty _ _ hmark),
      includes_failure_message, if_neg (by decide)]
  · intro data stats he
    have e : (st.run (handleSync b token st (.json false data) stats)).syncMessage
        = failureMark ++ " " ++ "Sync failed" := by
      unfold handleSync
      rw [hs, ht]
      simp [he, DashboardState.run, DashboardState.step, jsOr, truthy, toStr]
    unfold syncMessageClass
    rw [e, if_neg (by rw [String.append_assoc]; exact append_ne_empty _ _ hmark),
      includes_failure_message, if_neg (by decide)]
  · intro data stats e he hne
    have em : (st.run (handleSync b token st (.json false data) stats)).syncMessage
        = failureMark ++ " " ++ e := by
      unfold handleSync
      rw [hs, ht]
      simp [he, DashboardState.run, DashboardState.step, jsOr, truthy, toStr, hne]
    unfold syncMessageClass
    rw [em, if_neg (by rw [String.append_assoc]; exact append_ne_empty _ _ hmark),
      includes_failure_message]
    cases hi : includes e successMark
    · simp
    · simp

/-- C12, amended, at a failure at network level for the demo dashboard. -/
theorem sync_message_class_witness :
    syncMessageClass (demoDashboard.run
        (handleSync plainBuiltins (some "abc123") demoDashboard .networkError .networkError))
      = some "sync-error" :=
  (sync_message_class plainBuiltins (some "abc123") demoDashboard rfl rfl).2.1 .networkError

/-! ### Integers and their strings -/

theorem natDigits_shape (fuel n : Nat) :
    ∃ k rest, natDigits fuel n = digitChar k :: rest ∧ ∀ c ∈ rest, ∃ j, c = digitChar j := by
  induction fuel generalizing n with
  | zero => exact ⟨n, [], rfl, by simp⟩
  | succ f ih =>
      unfold natDigits
      by_cases h : n < 10
      · rw [if_pos h]
        exact ⟨n, [], rfl, by simp⟩
      · rw [if_neg h]
        obtain ⟨k, rest, hk, hr⟩ := ih (n / 10)
        refine ⟨k, rest ++ [digitChar n], by rw [hk]; rfl, ?_⟩
        intro c hc
        rcases List.mem_append.mp hc with h1 | h1
        · exact hr c h1
        · exact ⟨n, by simpa using h1⟩

theorem natDigits_value (fuel : Nat) :
    ∀ n, n ≤ fuel →
      (natDigits fuel n).foldl (fun acc c => 10 * acc + (digitVal c).getD 0) 0 = n := by
  induction fuel with
  | zero =>
      intro n hn
      have : n = 0 := by omega
      subst this
      simp [natDigits, digitVal_digitChar]
  | succ f ih =>
      intro n hn
      unfold natDigits
      by_cases h : n < 10
      · rw [if_pos h]
        simp only [List.foldl, digitVal_digitChar, Option.getD]
        omega
      · rw [if_neg h, List.foldl_append, ih (n / 10) (by omega)]
        simp only [List.foldl, digitVal_digitChar, Option.getD]
        omega

theorem digitChar_not_whitespace (k : Nat) : isWhitespace (digitChar k) = false := by
  unfold isWhitespace
  simp only [digitChar_toNat]
  have : k % 10 < 10 := Nat.mod_lt _ (by decide)
  generalize k % 10 = j at this
  interval_cases j <;> decide

theorem digitChar_ne_of_toNat (k : Nat) (c : Char) (h : c.toNat < 48 ∨ 57 < c.toNat) :
    digitChar k ≠ c := by
  intro hc
  have := congrArg Char.toNat hc
  rw [digitChar_toNat] at this
  omega

theorem digitVal_isSome_digitChar (k : Nat) : (digitVal (digitChar k)).isSome = true := by
  rw [digitVal_digitChar]; rfl

/-- The decimal digits of a natural number are read back by `parseInt`. -/
theorem parseIntMath_digits (ds : List Char) (k : Nat) (rest : List Char)
    (hd : ds = digitChar k :: rest) (hr : ∀ c ∈ rest, ∃ j, c = digitChar j) :
    parseIntMath (String.mk ds)
      = some ((ds.foldl (fun acc c => 10 * acc + (digitVal c).getD 0) 0 : Nat) : Int) ∧
    parseIntMath (String.mk ('-' :: ds))
      = some (-((ds.foldl (fun acc c => 10 * acc + (digitVal c).getD 0) 0 : Nat) : Int)) := by
  have hall : ∀ c ∈ ds, (digitVal c).isSome = true := by
    intro c hc
    rw [hd] at hc
    rcases List.mem_cons.mp hc with h | h
    · rw [h]; exact digitVal_isSome_digitChar k
    · obtain ⟨j, rfl⟩ := hr c h
      exact digitVal_isSome_digitChar j
  have htw : ds.takeWhile (fun c => (digitVal c).isSome) = ds :=
    List.takeWhile_eq_self_iff.mpr hall
  have hne : ds ≠ [] := by rw [hd]; simp
  have hhex : ¬ (ds.take 2 = ['0', 'x'] ∨ ds.take 2 = ['0', 'X']) := by
    rw [hd]
    cases rest with
    | nil => simp
    | cons r rs =>
        obtain ⟨j, rfl⟩ := hr r (List.mem_cons_self _ _)
        simp only [List.take_succ_cons, List.take_zero, List.cons.injEq, and_true]
        intro hc
        rcases hc with ⟨_, h2⟩ | ⟨_, h2⟩
        · exact digitChar_ne_of_toNat j 'x' (by decide) h2
        · exact digitChar_ne_of_toNat j 'X' (by decide) h2
  constructor
  · unfold parseIntMath
    have hw : (String.mk ds).data.dropWhile isWhitespace = ds := by
      show ds.dropWhile isWhitespace = ds
      rw [hd]
      exact List.dropWhile_cons_of_neg (by rw [digitChar_not_whitespace]; simp)
    simp only [hw]
    have hh : ds.head? = some (digitChar k) := by rw [hd]; rfl
    have h1 : ¬ (ds.head? = some '-' ∨ ds.head? = some '+') := by
      rw [hh]
      intro hc
      rcases hc with h | h
      · exact digitChar_ne_of_toNat k '-' (by decide) (Option.some.inj h)
      · exact digitChar_ne_of_toNat k '+' (by decide) (Option.some.inj h)
    have h2 : ¬ (ds.head? = some '-') := fun h => h1 (Or.inl h)
    simp only [if_neg h1, if_neg hhex, htw, if_neg hne, decide_eq_true_eq, if_neg h2]
  · unfold parseIntMath
    have hw : (String.mk ('-' :: ds)).data.dropWhile isWhitespace = '-' :: ds := by
      show ('-' :: ds).dropWhile isWhitespace = '-' :: ds
      exact List.dropWhile_cons_of_neg (by decide)
    simp only [hw]
    have hh : ('-' :: ds).head? = some '-' := rfl
    simp only [hh, true_or, if_true, List.drop_succ_cons, List.drop_zero, if_neg hhex, htw,
      if_neg hne, decide_True]

/-- The integer that `parseInt` reads from the string of an integer is that
integer. -/
theorem parseIntMath_intToString (x : Int) : parseIntMath (intToString x) = some x := by
  obtain ⟨k, rest, hk, hr⟩ := natDigits_shape x.natAbs x.natAbs
  have hv := natDigits_value x.natAbs x.natAbs (le_refl _)
  have hp := parseIntMath_digits _ k rest hk hr
  unfold intToString
  by_cases hx : x < 0
  · rw [if_pos hx, hp.2, hv]
    congr 1
    omega
  · rw [if_neg hx, hp.1, hv]
    congr 1
    omega

/-- Function `parseInt` reads the string of an integer below `2^53` in absolute
value back, whatever the rounding of the host. -/
theorem parseInt_intToString (h : MathHost) (x : Int) (hx : x.natAbs < 2 ^ 53) :
    parseInt h (intToString x) = some (x : ℚ) := by
  unfold parseInt
  rw [parseIntMath_intToString]
  simp only [Option.map]
  rw [h.fl_int x (by omega) (by omega)]

theorem toStr_int (b : Builtins) (x : Int) (hx : x.natAbs < 2 ^ 53) :
    toStr b (.num (x : ℚ)) = intToString x := by
  unfold toStr numberToString
  rw [if_pos ⟨Rat.intCast_den x, by rw [Rat.intCast_num]; exact hx⟩, Rat.intCast_num]

theorem strictEqNumber_iff (v : JsVal) (x : ℚ) :
    strictEqNumber v (some x) = true ↔ v = .num x := by
  cases v <;> simp [strictEqNumber]

/-- The search of the store selector finds the first element with the id. -/
theorem findById_first (x : ℚ) (items : List JsVal)
    (hobj : ∀ u ∈ items, getProp u "id" ≠ none)
    (hex : ∃ s ∈ items, getProp s "id" = some (.num x)) :
    ∃ pre s1 post, items = pre ++ s1 :: post ∧ getProp s1 "id" = some (.num x) ∧
      (∀ u ∈ pre, getProp u "id" ≠ some (.num x)) ∧
      findById (some x) items = some s1 := by
  induction items with
  | nil => obtain ⟨s, hs, _⟩ := hex; simp at hs
  | cons a as ih =>
      cases ha : getProp a "id" with
      | none => exact absurd ha (hobj a (List.mem_cons_self _ _))
      | some v =>
          by_cases hv : strictEqNumber v (some x) = true
          · refine ⟨[], a, as, rfl, ?_, by simp, ?_⟩
            · rw [ha, (strictEqNumber_iff v x).mp hv]
            · unfold findById
              rw [ha]
              simp only [hv, if_true]
          · have hne : getProp a "id" ≠ some (.num x) := by
              rw [ha]
              intro hc
              exact hv ((strictEqNumber_iff v x).mpr (Option.some.inj hc))
            obtain ⟨s, hs, hsid⟩ := hex
            have hs' : s ∈ as := by
              rcases List.mem_cons.mp hs with h | h
              · rw [h] at hsid; exact absurd hsid hne
              · exact h
            obtain ⟨pre, s1, post, h1, h2, h3, h4⟩ :=
              ih (fun u hu => hobj u (List.mem_cons_of_mem _ hu)) ⟨s, hs', hsid⟩
            refine ⟨a :: pre, s1, post, by rw [h1]; rfl, h2, ?_, ?_⟩
            · intro u hu
              rcases List.mem_cons.mp hu with h | h
              · rw [h]; exact hne
              · exact h3 u h
            · unfold findById
              rw [ha]
              simp only [hv, if_false]
              exact h4

theorem truthy_of_id (v : JsVal) (q : ℚ) (h : getProp v "id" = some (.num q)) :
    truthy v = true := by
  cases v
  all_goals simp [getProp] at h
  all_goals rfl

theorem run_snoc_setSyncing (st : DashboardState) (xs : List Action) (v : Bool) :
    (st.run (xs ++ [.setSyncing v])).syncing = v := by
  rw [run_append]
  rfl

theorem run_no_setSyncing (st : DashboardState) (l : List Action)
    (h : ∀ a ∈ l, ∀ v, a ≠ .setSyncing v) : (st.run l).syncing = st.syncing := by
  induction l generalizing st with
  | nil => rfl
  | cons a as ih =>
      have h1 : (st.run (a :: as)) = (st.step a).run as := rfl
      rw [h1, ih (st.step a) (fun x hx => h x (List.mem_cons_of_mem _ hx))]
      have ha := h a (List.mem_cons_self _ _)
      cases a <;> first | rfl | exact absurd rfl (ha _)

/-- Between its first and its last action `handleSync` does not set `syncing`. -/
theorem handleSync_middle (b : Builtins) (token : Option String) (st : DashboardState)
    (sync stats : Response) (hs : truthy st.selectedStore = true)
    (ht : tokenPresent token = true) :
    ∃ middle, handleSync b token st sync stats =
      .setSyncing true :: (middle ++ [.setSyncing false]) ∧
      ∀ a ∈ middle, ∀ v, a ≠ .setSyncing v := by
  unfold handleSync
  rw [hs, ht]
  cases sync with
  | networkError =>
      exact ⟨[Action.setSyncMessage "", Action.fetch (syncRequest b token st.selectedStore)] ++ syncCatch,
        rfl, by intro a ha v h; subst h; simp [syncCatch] at ha⟩
  | undecodable ok =>
      exact ⟨[Action.setSyncMessage "", Action.fetch (syncRequest b token st.selectedStore)] ++ syncCatch,
        rfl, by intro a ha v h; subst h; simp [syncCatch] at ha⟩
  | json ok data =>
      cases ok with
      | false =>
          cases hg : getProp data "error" with
          | none =>
              exact ⟨[Action.setSyncMessage "", Action.fetch (syncRequest b token st.selectedStore)]
                  ++ syncCatch,
                by simp [hg], by intro a ha v h; subst h; simp [syncCatch] at ha⟩
          | some e =>
              exact ⟨[Action.setSyncMessage "", Action.fetch (syncRequest b token st.selectedStore),
                  Action.setSyncMessage (failureMark ++ " " ++ toStr b (jsOr e (.str "Sync failed")))],
                by simp [hg], by intro a ha v h; subst h; simp at ha⟩
      | true =>
          cases hg : getProp data "message" with
          | none =>
              exact ⟨[Action.setSyncMessage "", Action.fetch (syncRequest b token st.selectedStore)]
                  ++ syncCatch,
                by simp [hg], by intro a ha v h; subst h; simp [syncCatch] at ha⟩
          | some m =>
              cases stats with
              | networkError =>
                  exact ⟨[Action.setSyncMessage "", Action.fetch (syncRequest b token st.selectedStore),
                      Action.setSyncMessage (successMark ++ " " ++ toStr b m),
                      Action.fetch (statsRequest b token st.selectedStore)] ++ syncCatch,
                    by simp [hg], by intro a ha v h; subst h; simp [syncCatch] at ha⟩
              | undecodable ok2 =>
                  exact ⟨[Action.setSyncMessage "", Action.fetch (syncRequest b token st.selectedStore),
                      Action.setSyncMessage (successMark ++ " " ++ toStr b m),
                      Action.fetch (statsRequest b token st.selectedStore)] ++ syncCatch,
                    by simp [hg], by intro a ha v h; subst h; simp [syncCatch] at ha⟩
              | json ok2 sd =>
                  exact ⟨[Action.setSyncMessage "", Action.fetch (syncRequest b token st.selectedStore),
                      Action.setSyncMessage (successMark ++ " " ++ toStr b m),
                      Action.fetch (statsRequest b token st.selectedStore),
                      Action.setStats sd, Action.setTimeoutRefresh 500],
                    by simp [hg], by intro a ha v h; subst h; simp at ha⟩

/-- C13: with a selected store and a token, `handleSync` sets `syncing` to true
and then issues the sync call; `syncing` is true after every action but the
last, and false in the final state, whatever the outcomes of the sync call
and of the call of the statistics; without a selected store or without a
token `handleSync` does nothing; and the sync button is disabled exactly when
`syncing` is true or no store is selected. -/
theorem syncing_flag (b : Builtins) (token : Option String) (st : DashboardState)
    (sync stats : Response) :
    (truthy st.selectedStore = true → tokenPresent token = true →
      (∃ rest, handleSync b token st sync stats
          = .setSyncing true :: .setSyncMessage "" ::
              .fetch (syncRequest b token st.selectedStore) :: rest) ∧
      (∀ n, 1 ≤ n → n < (handleSync b token st sync stats).length →
        (st.run ((handleSync b token st sync stats).take n)).syncing = true) ∧
      (st.run (handleSync b token st sync stats)).syncing = false) ∧
    ((truthy st.selectedStore = false ∨ tokenPresent token = false) →
      handleSync b token st sync stats = [] ∧
      st.run (handleSync b token st sync stats) = st) ∧
    (syncDisabled st = true ↔ (st.syncing = true ∨ truthy st.selectedStore = false)) := by
  refine ⟨?_, ?_, ?_⟩
  · intro hs ht
    obtain ⟨middle, hm⟩ := handleSync_guarded b token st sync stats hs ht
    obtain ⟨mid, hmid, hfree⟩ := handleSync_middle b token st sync stats hs ht
    refine ⟨⟨middle ++ [.setSyncing false], by rw [hm]; rfl⟩, ?_, ?_⟩
    · intro n h1 hn
      rw [hmid] at hn ⊢
      obtain ⟨k, rfl⟩ : ∃ k, n = k + 1 := ⟨n - 1, by omega⟩
      simp only [List.length_cons, List.length_append, List.length_nil] at hn
      have hk : k ≤ mid.length := by omega
      rw [List.take_succ_cons, List.take_append_of_le_length hk]
      have e : st.run (Action.setSyncing true :: List.take k mid)
          = (st.step (.setSyncing true)).run (List.take k mid) := rfl
      rw [e, run_no_setSyncing _ _ (fun a ha => hfree a (List.mem_of_mem_take ha))]
      rfl
    · rw [hm]
      exact run_snoc_setSyncing st _ false
  · intro h
    have e : handleSync b token st sync stats = [] := by
      unfold handleSync
      rcases h with h | h
      · rw [h]; rfl
      · rw [h]; simp
    rw [e]
    exact ⟨rfl, rfl⟩
  · unfold syncDisabled
    cases st.syncing <;> cases truthy st.selectedStore <;> simp

/-- C13, at the demo dashboard: the flag is false after a successful sync. -/
theorem syncing_flag_witness :
    (demoDashboard.run (handleSync plainBuiltins (some "abc123") demoDashboard
      (.json true (.obj [("message", .str "ok")])) (.json true mockStats))).syncing = false :=
  ((syncing_flag plainBuiltins (some "abc123") demoDashboard
    (.json true (.obj [("message", .str "ok")])) (.json true mockStats)).1 rfl rfl).2.2

/-- C14: the request of the store form goes to the origin
`https://xeno-backend-7jfm.onrender.com`, whereas every other request goes to
`http://localhost:3000`. -/
theorem request_origins (b : Builtins) (token : Option String) (selectedStore : JsVal)
    (dateRange ordersDateRange : DateRange) (email password name storeUrl apiToken : String) :
    (allRequests b token selectedStore dateRange ordersDateRange email password name storeUrl
        apiToken).map Request.origin
      = ["http://localhost:3000", "http://localhost:3000", "http://localhost:3000",
         "http://localhost:3000", "http://localhost:3000", "http://localhost:3000",
         "http://localhost:3000", "https://xeno-backend-7jfm.onrender.com"] ∧
    (tenantsRequest token name storeUrl apiToken).origin ≠ (storesRequest token).origin := by
  refine ⟨rfl, ?_⟩
  show tenantOrigin ≠ localOrigin
  decide

/-- C15: with a token `t` that is not the empty string, the effect of `App` and
the effect of `Dashboard` issue the request of `/stores` with the header
`Authorization: Bearer t`; without a token they issue no request. -/
theorem stores_fetch_bearer (b : Builtins) (t : String) (ht : t ≠ "") (resp : Response) :
    (∀ st : AppState, st.token = some t →
      ∃ rest, fetchStores st resp = .fetch
        { method := "GET", origin := "http://localhost:3000", path := "/stores",
          authorization := some ("Bearer " ++ t), contentType := none, body := none } :: rest) ∧
    (∃ rest, storesEffect b (some t) resp = .fetch
        { method := "GET", origin := "http://localhost:3000", path := "/stores",
          authorization := some ("Bearer " ++ t), contentType := none, body := none } :: rest) ∧
    (∀ token : Option String, tokenPresent token = false →
      storesEffect b token resp = [] ∧
      ∀ st : AppState, st.token = token → fetchStores st resp = []) := by
  have hp : tokenPresent (some t) = true := by simp [tokenPresent, ht]
  refine ⟨?_, ?_, ?_⟩
  · intro st hst
    unfold fetchStores
    rw [hst, hp]
    exact ⟨_, rfl⟩
  · unfold storesEffect
    rw [hp]
    exact ⟨_, rfl⟩
  · intro token htok
    constructor
    · unfold storesEffect
      rw [htok]
      rfl
    · intro st hst
      unfold fetchStores
      rw [hst, htok]
      rfl

/-- C15, at the token "abc123". -/
theorem stores_fetch_bearer_witness :
    ∃ rest, storesEffect plainBuiltins (some "abc123") .networkError = .fetch
        { method := "GET", origin := "http://localhost:3000", path := "/stores",
          authorization := some ("Bearer " ++ "abc123"), contentType := none, body := none }
        :: rest :=
  (stores_fetch_bearer plainBuiltins "abc123" (by decide) .networkError).2.1

/-- C16: for a list of stores, none of them `null` or `undefined`, and a store
of the list with the integer id `x` (below `2^53` in absolute value), choosing
the option of that store selects the first store of the list whose id is
`x`, and the effect of the statistics that follows requests the path
`/stats/x` of `http://localhost:3000`, whatever the rounding of the host. -/
theorem select_store_requests_stats (h : MathHost) (b : Builtins) (token : Option String)
    (st : DashboardState) (items : List JsVal) (x : Int) (s : JsVal) (resp : Response)
    (hst : st.stores = .arr items) (hobj : ∀ u ∈ items, getProp u "id" ≠ none)
    (hs : s ∈ items) (hid : getProp s "id" = some (.num (x : ℚ))) (hx : x.natAbs < 2 ^ 53)
    (ht : tokenPresent token = true) :
    ∃ pre s1 post, items = pre ++ s1 :: post ∧ getProp s1 "id" = some (.num (x : ℚ)) ∧
      (∀ u ∈ pre, getProp u "id" ≠ some (.num (x : ℚ))) ∧
      onStoreChange h st (optionValue b s) = [.setSelectedStore s1] ∧
      (st.run (onStoreChange h st (optionValue b s))).selectedStore = s1 ∧
      ∃ rest, statsEffect b token (st.run (onStoreChange h st (optionValue b s))) resp
        = .fetch { method := "GET", origin := "http://localhost:3000",
                   path := "/stats/" ++ intToString x,
                   authorization := some (bearer token), contentType := none, body := none }
          :: rest := by
  obtain ⟨pre, s1, post, h1, h2, h3, h4⟩ := findById_first (x : ℚ) items hobj ⟨s, hs, hid⟩
  have hv : optionValue b s = intToString x := by
    unfold optionValue storeIdString
    rw [hid]
    exact toStr_int b x hx
  have hc : onStoreChange h st (optionValue b s) = [.setSelectedStore s1] := by
    unfold onStoreChange
    rw [hst, hv, parseInt_intToString h x hx]
    simp only [h4]
  refine ⟨pre, s1, post, h1, h2, h3, hc, by rw [hc]; rfl, ?_⟩
  rw [hc]
  have hsel : (st.run [.setSelectedStore s1]).selectedStore = s1 := rfl
  have hreq : statsRequest b token s1
      = { method := "GET", origin := "http://localhost:3000",
          path := "/stats/" ++ intToString x,
          authorization := some (bearer token), contentType := none, body := none } := by
    unfold statsRequest storeIdString getRequest
    rw [h2]
    simp only [Option.getD, toStr_int b x hx]
    rfl
  unfold statsEffect
  rw [hsel, truthy_of_id s1 _ h2, ht, hreq]
  exact ⟨_, rfl⟩

/-- C16, at the demo dashboard and its store with id 7. -/
theorem select_store_requests_stats_witness :
    ∃ pre s1 post, [demoStore] = pre ++ s1 :: post ∧
      getProp s1 "id" = some (.num ((7 : Int) : ℚ)) ∧
      (∀ u ∈ pre, getProp u "id" ≠ some (.num ((7 : Int) : ℚ))) ∧
      onStoreChange exactHost demoDashboard (optionValue plainBuiltins demoStore)
        = [.setSelectedStore s1] ∧
      (demoDashboard.run (onStoreChange exactHost demoDashboard
        (optionValue plainBuiltins demoStore))).selectedStore = s1 ∧
      ∃ rest, statsEffect plainBuiltins (some "abc123") (demoDashboard.run
          (onStoreChange exactHost demoDashboard (optionValue plainBuiltins demoStore)))
            .networkError
        = .fetch { method := "GET", origin := "http://localhost:3000",
                   path := "/stats/" ++ intToString 7,
                   authorization := some (bearer (some "abc123")), contentType := none,
                   body := none }
          :: rest :=
  select_store_requests_stats exactHost plainBuiltins (some "abc123") demoDashboard [demoStore] 7
    demoStore .networkError rfl
    (by intro u hu; rw [List.mem_singleton.mp hu]; simp [demoStore, getProp])
    (List.mem_singleton.mpr rfl) (by simp [demoStore, getProp]) (by decide) rfl

/-- C16, counterexample: for a store whose id is `10^21` the value of the option
is "1e+21", which `parseInt` reads as 1, and choosing the store selects
`undefined`; and for a store whose id is `2^64` the path of the statistics is
`/stats/18446744073709552000`, not the decimal digits of the id. -/
theorem select_store_big_id :
    optionValue exponentBuiltins bigIdStore = "1e+21" ∧
    parseInt exactHost "1e+21" = some 1 ∧
    onStoreChange exactHost bigIdDashboard (optionValue exponentBuiltins bigIdStore)
      = [.setSelectedStore .undefined] ∧
    (statsRequest exponentBuiltins (some "abc123") hugeIdStore).path
      = "/stats/18446744073709552000" ∧
    (statsRequest exponentBuiltins (some "abc123") hugeIdStore).path
      ≠ "/stats/" ++ intToString 18446744073709551616 :=
  ⟨by decide, by decide, rfl, by decide, by decide⟩

/-- C17: on a host five hours behind UTC, the label 2025-09-13 of the range from
2025-09-10 to 2025-09-14 is a Saturday, the 13th, yet its revenue is computed
with the base 1500 of a Friday and the day of the month 12. -/
theorem revenue_base_behind_utc (h : MathHost) :
    (generateRevenueData utcMinus5 h "2025-09-10" "2025-09-14").labels[3]?
      = some "2025-09-13" ∧
    parseDate "2025-09-13" = some 1757721600000 ∧
    WeekDay 1757721600000 = 6 ∧ DateFromTime 1757721600000 = 13 ∧
    getDay utcMinus5 1757721600000 = 5 ∧ getDate utcMinus5 1757721600000 = 12 ∧
    (generateRevenueData utcMinus5 h "2025-09-10" "2025-09-14").data[3]? =
      some (some (h.fl ((mathRound (h.fl (h.fl (1500 +
        h.fl (h.fl (h.fl (h.sin (h.fl (3 * h.fl (8 / 10))) * 300)
                  + h.fl (h.cos (h.fl (12 * h.fl (3 / 10))) * 150)) + 49)) * 100)) : ℚ)
        / 100))) := by
  have e0 : generateDateRange utcMinus5 "2025-09-10" "2025-09-14"
      = ["2025-09-10", "2025-09-11", "2025-09-12", "2025-09-13", "2025-09-14"] := by decide
  have e1 : parseDate "2025-09-13" = some 1757721600000 := by decide
  have e2 : charCodeAt "2025-09-13" 8 = some 49 := by decide
  have e3 : getDay utcMinus5 1757721600000 = 5 := by decide
  have e4 : getDate utcMinus5 1757721600000 = 12 := by decide
  refine ⟨?_, e1, by decide, by decide, e3, e4, ?_⟩
  · unfold generateRevenueData
    rw [e0]
    rfl
  · have hd : (generateRevenueData utcMinus5 h "2025-09-10" "2025-09-14").data[3]?
        = some (revenueValue utcMinus5 h "2025-09-13" 3) := by
      unfold generateRevenueData
      rw [e0]
      rfl
    rw [hd]
    unfold revenueValue
    rw [e1, e2]
    simp only [e3, e4]
    norm_num [baseRevenue]

/-- C18: on a host five hours behind UTC, the number of orders of the label
2025-09-13, a Saturday, is computed with the base 5 of a Friday and the day
of the month 12. -/
theorem orders_base_behind_utc (h : MathHost) :
    (generateOrdersData utcMinus5 h "2025-09-10" "2025-09-14").labels[3]?
      = some "2025-09-13" ∧
    WeekDay 1757721600000 = 6 ∧
    baseOrders (WeekDay 1757721600000) = 1 ∧
    baseOrders (getDay utcMinus5 1757721600000) = 5 ∧
    (generateOrdersData utcMinus5 h "2025-09-10" "2025-09-14").data[3]? =
      some (some (max 0 (h.fl (5 + ((⌊h.fl (h.fl (h.fl (h.sin (h.fl (3 * h.fl (12 / 10))) * 3)
                  + h.fl (h.cos (h.fl (12 * h.fl (4 / 10))) * 2)) + 1)⌋ : Int) : ℚ))))) := by
  have e0 : generateDateRange utcMinus5 "2025-09-10" "2025-09-14"
      = ["2025-09-10", "2025-09-11", "2025-09-12", "2025-09-13", "2025-09-14"] := by decide
  have e1 : parseDate "2025-09-13" = some 1757721600000 := by decide
  have e2 : charCodeAt "2025-09-13" 8 = some 49 := by decide
  have e3 : getDay utcMinus5 1757721600000 = 5 := by decide
  have e4 : getDate utcMinus5 1757721600000 = 12 := by decide
  refine ⟨?_, by decide, by decide, by decide, ?_⟩
  · unfold generateOrdersData
    rw [e0]
    rfl
  · have hd : (generateOrdersData utcMinus5 h "2025-09-10" "2025-09-14").data[3]?
        = some (ordersValue utcMinus5 h "2025-09-13" 3) := by
      unfold generateOrdersData
      rw [e0]
      rfl
    rw [hd]
    unfold ordersValue
    rw [e1, e2]
    simp only [e3, e4]
    norm_num [baseOrders]

/-! ### The store URL -/

theorem runs_head (c : Char) (cs : List Char) : ∃ r rs, runs (c :: cs) = (c :: r) :: rs := by
  unfold runs
  split
  · split_ifs
    · exact ⟨_, _, rfl⟩
    · exact ⟨_, _, rfl⟩
  · exact ⟨_, _, rfl⟩

/-- The replacement of `handleNameChange` replaces every maximal run of white
space by a single hyphen. -/
theorem replaceSpaces_eq_replaceRuns (cs : List Char) : replaceSpaces cs = replaceRuns cs := by
  induction cs with
  | nil => rfl
  | cons c cs ih =>
      cases cs with
      | nil =>
          unfold replaceSpaces replaceRuns runs
          by_cases hc : isWhitespace c = true
          · simp [hc, runs]
          · simp [hc, runs, replaceSpaces]
      | cons d cs1 =>
          obtain ⟨r, rs, hr⟩ := runs_head d cs1
          have hruns : runs (c :: d :: cs1) =
              if isWhitespace c = isWhitespace d then (c :: d :: r) :: rs
              else [c] :: (d :: r) :: rs := by
            conv_lhs => unfold runs
            rw [hr]
          unfold replaceRuns at ih ⊢
          rw [hr] at ih
          rw [hruns]
          unfold replaceSpaces
          by_cases hc : isWhitespace c = true <;> by_cases hd : isWhitespace d = true
          · simp only [hc, hd, if_true] at ih ⊢
            rw [ih]
            simp [hc, hd]
          · simp only [hc, hd, if_true] at ih ⊢
            rw [ih]
            simp [hc, hd]
          · simp only [hc, hd] at ih ⊢
            rw [ih]
            simp [hc, hd]
          · simp only [hc, hd] at ih ⊢
            rw [ih]
            simp [hc, hd]

theorem replaceSpaces_no_whitespace (cs : List Char) :
    ∀ c ∈ replaceSpaces cs, isWhitespace c = false := by
  induction cs with
  | nil => intro c hc; simp [replaceSpaces] at hc
  | cons a cs ih =>
      intro c hc
      unfold replaceSpaces at hc
      by_cases ha : isWhitespace a = true
      · rw [if_pos ha] at hc
        cases cs with
        | nil =>
            simp only [List.mem_singleton] at hc
            rw [hc]; decide
        | cons d cs1 =>
            simp only at hc
            by_cases hd : isWhitespace d = true
            · rw [if_pos hd] at hc
              exact ih c hc
            · rw [if_neg hd] at hc
              rcases List.mem_cons.mp hc with h | h
              · rw [h]; decide
              · exact ih c h
      · rw [if_neg ha] at hc
        rcases List.mem_cons.mp hc with h | h
        · rw [h]; simpa using ha
        · exact ih c h

theorem mem_dropWhile_of_not {p : Char → Bool} (l : List Char) (c : Char) (hc : c ∈ l)
    (hp : p c = false) : c ∈ l.dropWhile p := by
  induction l with
  | nil => simp at hc
  | cons a as ih =>
      by_cases ha : p a = true
      · rw [List.dropWhile_cons_of_pos ha]
        rcases List.mem_cons.mp hc with h | h
        · rw [h] at hp; rw [hp] at ha; exact absurd ha (by decide)
        · exact ih h
      · rw [List.dropWhile_cons_of_neg ha]
        exact hc

/-- A string trims to the empty string exactly when all its characters are
white space. -/
theorem trim_eq_empty_iff (s : String) :
    trim s = "" ↔ ∀ c ∈ s.data, isWhitespace c = true := by
  unfold trim
  constructor
  · intro h c hc
    by_contra hw
    have hw' : isWhitespace c = false := by simpa using hw
    have h1 := mem_dropWhile_of_not s.data c hc hw'
    have h2 : c ∈ (s.data.dropWhile isWhitespace).reverse := List.mem_reverse.mpr h1
    have h3 := mem_dropWhile_of_not _ c h2 hw'
    have h4 : c ∈ (((s.data.dropWhile isWhitespace).reverse).dropWhile isWhitespace).reverse :=
      List.mem_reverse.mpr h3
    have h5 := congrArg String.data h
    simp only at h5
    rw [h5] at h4
    simp at h4
  · intro h
    have h1 : s.data.dropWhile isWhitespace = [] := List.dropWhile_eq_nil_iff.mpr h
    rw [h1]
    rfl

/-- C19: when the store name has a character that is not white space, the store
URL is "https://", the lower-cased name with every maximal run of white space
replaced by a single hyphen, and ".myshopify.com", and the URL contains no
white space; when the name is empty or white space only, the store URL is
the empty string.  In both cases the name is stored as typed. -/
theorem handleNameChange_storeUrl (b : Builtins) (st : TenantFormState) (storeName : String) :
    ((∃ c ∈ storeName.data, isWhitespace c = false) →
      (handleNameChange b st storeName).storeUrl
        = "https://" ++ String.mk (replaceRuns (b.toLowerCase storeName).data)
            ++ ".myshopify.com" ∧
      ∀ c ∈ (handleNameChange b st storeName).storeUrl.data, isWhitespace c = false) ∧
    ((∀ c ∈ storeName.data, isWhitespace c = true) →
      (handleNameChange b st storeName).storeUrl = "") ∧
    (handleNameChange b st storeName).name = storeName := by
  refine ⟨?_, ?_, ?_⟩
  · intro ⟨c, hc, hw⟩
    have ht : trim storeName ≠ "" := by
      intro hcon
      have := (trim_eq_empty_iff storeName).mp hcon c hc
      rw [hw] at this
      exact absurd this (by decide)
    have e : (handleNameChange b st storeName).storeUrl
        = "https://" ++ String.mk (replaceSpaces (b.toLowerCase storeName).data)
            ++ ".myshopify.com" := by
      unfold handleNameChange
      rw [if_pos ht]
    constructor
    · rw [e, replaceSpaces_eq_replaceRuns]
    · rw [e]
      intro d hd
      simp only [String.data_append, List.mem_append] at hd
      rcases hd with (h | h) | h
      · have : ∀ x ∈ "https://".data, isWhitespace x = false := by decide
        exact this d h
      · exact replaceSpaces_no_whitespace _ d h
      · have : ∀ x ∈ ".myshopify.com".data, isWhitespace x = false := by decide
        exact this d h
  · intro h
    unfold handleNameChange
    rw [if_neg (by simpa using (trim_eq_empty_iff storeName).mpr h)]
  · unfold handleNameChange
    split_ifs <;> rfl

/-- C19, at the name "My  Shop" with lower-casing left out. -/
theorem handleNameChange_storeUrl_witness :
    (handleNameChange plainBuiltins { name := "", storeUrl := "" } "my  shop").storeUrl
      = "https://" ++ String.mk (replaceRuns "my  shop".data) ++ ".myshopify.com" :=
  ((handleNameChange_storeUrl plainBuiltins { name := "", storeUrl := "" } "my  shop").1
    ⟨'m', by decide, by decide⟩).1

/-- C20: on a host in the time zone of Berlin, `generateDateRange` from
2025-03-29 to 2025-04-01 yields 2025-03-30 twice and not 2025-04-01, whereas
with the offset zero it yields the four dates of the range. -/
theorem generateDateRange_berlin_spring :
    generateDateRange berlin2025 "2025-03-29" "2025-04-01"
        = ["2025-03-29", "2025-03-30", "2025-03-30", "2025-03-31"] ∧
      generateDateRange (fixedZone 0) "2025-03-29" "2025-04-01"
        = ["2025-03-29", "2025-03-30", "2025-03-31", "2025-04-01"] ∧
      generateDateRange berlin2025 "2025-03-29" "2025-04-01"
        ≠ generateDateRange (fixedZone 0) "2025-03-29" "2025-04-01" := by
  decide

/-! ### The cards of the dashboard -/

theorem truthy_num (q : ℚ) : truthy (.num q) = true ↔ q ≠ 0 := by
  simp [truthy]

/-- C21: the Total Orders card shows the `totalOrders` of the statistics when it
is a number other than 0, and the mock value 3 when it is 0 or missing (also
when there are no statistics yet); the Total Customers card does the same
with `totalCustomers` and the mock value 4; neither card ever shows the
number 0. -/
theorem kpi_cards (b : Builtins) (st : DashboardState) :
    ((∀ q : ℚ, getPropOptional st.stats "totalOrders" = .num q → q ≠ 0 →
        totalOrdersCard st = .num q ∧
        reactText b (totalOrdersCard st) = some (numberToString b q)) ∧
      (getPropOptional st.stats "totalOrders" = .num 0 ∨
        getPropOptional st.stats "totalOrders" = .undefined ∨
        getPropOptional st.stats "totalOrders" = .null →
        totalOrdersCard st = .num 3 ∧ reactText b (totalOrdersCard st) = some "3") ∧
      (st.stats = .null → totalOrdersCard st = .num 3) ∧
      totalOrdersCard st ≠ .num 0) ∧
    ((∀ q : ℚ, getPropOptional st.stats "totalCustomers" = .num q → q ≠ 0 →
        totalCustomersCard st = .num q ∧
        reactText b (totalCustomersCard st) = some (numberToString b q)) ∧
      (getPropOptional st.stats "totalCustomers" = .num 0 ∨
        getPropOptional st.stats "totalCustomers" = .undefined ∨
        getPropOptional st.stats "totalCustomers" = .null →
        totalCustomersCard st = .num 4 ∧ reactText b (totalCustomersCard st) = some "4") ∧
      (st.stats = .null → totalCustomersCard st = .num 4) ∧
      totalCustomersCard st ≠ .num 0) := by
  have m3 : (getProp mockStats "totalOrders").getD .undefined = .num 3 := rfl
  have m4 : (getProp mockStats "totalCustomers").getD .undefined = .num 4 := rfl
  have t3 : reactText b (.num 3) = some "3" := by
    have e : numberToString b 3 = "3" := by
      unfold numberToString
      rw [if_pos (by decide)]
      decide
    simp only [reactText, e]
  have t4 : reactText b (.num 4) = some "4" := by
    have e : numberToString b 4 = "4" := by
      unfold numberToString
      rw [if_pos (by decide)]
      decide
    simp only [reactText, e]
  have key : ∀ (v : JsVal) (m : ℚ), m ≠ 0 →
      (∀ q : ℚ, v = .num q → q ≠ 0 → jsOr v (.num m) = .num q) ∧
      (v = .num 0 ∨ v = .undefined ∨ v = .null → jsOr v (.num m) = .num m) ∧
      jsOr v (.num m) ≠ .num 0 := by
    intro v m hm
    refine ⟨?_, ?_, ?_⟩
    · intro q hv hq
      unfold jsOr
      rw [hv, if_pos ((truthy_num q).mpr hq)]
    · intro hv
      unfold jsOr
      rcases hv with h | h | h <;> rw [h] <;> simp [truthy]
    · unfold jsOr
      by_cases ht : truthy v = true
      · rw [if_pos ht]
        intro hc
        rw [hc] at ht
        exact (truthy_num 0).mp ht rfl
      · rw [if_neg ht]
        intro hc
        injection hc with hc
        exact hm hc
  constructor
  · obtain ⟨k1, k2, k3⟩ := key (getPropOptional st.stats "totalOrders") 3 (by norm_num)
    unfold totalOrdersCard
    rw [m3]
    refine ⟨?_, ?_, ?_, k3⟩
    · intro q hv hq
      rw [k1 q hv hq]
      exact ⟨rfl, rfl⟩
    · intro hv
      rw [k2 hv]
      exact ⟨rfl, t3⟩
    · intro hs
      rw [hs]
      rfl
  · obtain ⟨k1, k2, k3⟩ := key (getPropOptional st.stats "totalCustomers") 4 (by norm_num)
    unfold totalCustomersCard
    rw [m4]
    refine ⟨?_, ?_, ?_, k3⟩
    · intro q hv hq
      rw [k1 q hv hq]
      exact ⟨rfl, rfl⟩
    · intro hv
      rw [k2 hv]
      exact ⟨rfl, t4⟩
    · intro hs
      rw [hs]
      rfl

/-- C21, at statistics that count no order and twelve customers: the cards show
3 and 12. -/
theorem kpi_cards_witness :
    totalOrdersCard zeroOrdersDashboard = .num 3 ∧
    totalCustomersCard zeroOrdersDashboard = .num 12 :=
  ⟨((kpi_cards plainBuiltins zeroOrdersDashboard).1.2.1 (Or.inl rfl)).1,
   ((kpi_cards plainBuiltins zeroOrdersDashboard).2.1 12 rfl (by norm_num)).1⟩

end Xeno
